import Mathlib

/-!
# Verification of the memberful webhook core

This development embeds the webhook parsing, validation and signature
verification core of the memberful Python client library and proves the
specified properties about it.

The source tree contains two generations of the webhook code:

* the legacy module `memberful/webhooks.py` together with its models in
  `memberful/webhook_models.py` — a twelve-branch dispatcher
  `parse_webhook_payload`, the `WebhookHandler` class
  (`verify_signature`, `process_webhook`), and strict pydantic models
  that silently ignore unknown JSON keys (pydantic's default
  `extra='ignore'` policy);
* the current package models in `memberful/webhooks/models.py` — a
  richer set of entity and event models deriving from
  `WebhookBaseModel` (`extra='allow'` plus a read-only `extras`
  property), a nineteen-variant `WebhookEvent` union, and tolerant field
  typing (optional plan price, `Order.created_at` as `int | str`).

Both generations are embedded here: JSON values are a small inductive
type, pydantic model validation becomes explicit decoding functions from
JSON to Lean structures, Python exceptions become `Except` errors, and
the two external library calls of the verifier/pipeline (`hmac`/
`hashlib` and `json.loads`) are respectively implemented concretely
(HMAC-SHA-256 below) and taken as a function parameter.
-/

set_option maxRecDepth 40000

/-- A Python exception as surfaced by the webhook core: either a
`ValueError` (which includes pydantic's `ValidationError`) or a
`TypeError`, each carrying its message. -/
inductive PyErr where
  | valueError (msg : String)
  | typeError (msg : String)
deriving DecidableEq, Repr

/-- A JSON value as produced by `json.loads`: null, booleans, integers,
strings, arrays and objects.  Objects are association lists in input
order, mirroring Python dicts built from JSON text.  (The payloads the
library handles are integer-numbered throughout, so numbers are modelled
as integers.) -/
inductive Json where
  | null
  | bool (b : Bool)
  | num (n : Int)
  | str (s : String)
  | arr (elems : List Json)
  | obj (fields : List (String × Json))
deriving Repr

/-- A Python dict with string keys, as passed to the pydantic models and
to `parse_webhook_payload`. -/
abbrev PyDict := List (String × Json)

/-- `d.get(name)`: the value stored under `name`, if any. -/
def getField : PyDict → String → Option Json
  | [], _ => none
  | (k, v) :: rest, name => if k = name then some v else getField rest name

/-- The unrecognized entries of an input object: everything whose key is
not a declared model field.  This is what pydantic's `extra='allow'`
stores in `__pydantic_extra__`. -/
def collectExtras (declared : List String) (kvs : PyDict) : PyDict :=
  kvs.filter (fun kv => !(declared.contains kv.1))

/-- Whether an `Except` value is a success. -/
def exceptOk : Except PyErr α → Bool
  | .ok _ => true
  | .error _ => false

/-! ## Closed enum vocabularies (`models.py`)

The four `str`-valued enums are shared, definition for definition, by
`webhook_models.py` and `webhooks/models.py`. -/

/-- Member signup methods. -/
inductive SignupMethod where
  | checkout | manual | api | importMethod
deriving DecidableEq, Repr

/-- `SignupMethod(value)`: the enum member with the given value. -/
def SignupMethod.fromString : String → Option SignupMethod
  | "checkout" => some .checkout
  | "manual" => some .manual
  | "api" => some .api
  | "import" => some .importMethod
  | _ => none

/-- Order status values. -/
inductive OrderStatus where
  | completed | suspended | pending | cancelled
deriving DecidableEq, Repr

/-- `OrderStatus(value)`: the enum member with the given value. -/
def OrderStatus.fromString : String → Option OrderStatus
  | "completed" => some .completed
  | "suspended" => some .suspended
  | "pending" => some .pending
  | "cancelled" => some .cancelled
  | _ => none

/-- Subscription renewal periods. -/
inductive RenewalPeriod where
  | monthly | yearly | quarterly | weekly
deriving DecidableEq, Repr

/-- `RenewalPeriod(value)`: the enum member with the given value. -/
def RenewalPeriod.fromString : String → Option RenewalPeriod
  | "monthly" => some .monthly
  | "yearly" => some .yearly
  | "quarterly" => some .quarterly
  | "weekly" => some .weekly
  | _ => none

/-- Subscription interval units. -/
inductive IntervalUnit where
  | month | year | quarter | week | day
deriving DecidableEq, Repr

/-- `IntervalUnit(value)`: the enum member with the given value. -/
def IntervalUnit.fromString : String → Option IntervalUnit
  | "month" => some .month
  | "year" => some .year
  | "quarter" => some .quarter
  | "week" => some .week
  | "day" => some .day
  | _ => none

/-! ## Field validation helpers

Each helper reproduces how pydantic validates one annotated field of a
model from the keyword arguments: a required field missing is a
`ValidationError` (a `ValueError`), a present field of the wrong shape
is a `ValidationError`, an optional field absent or `null` becomes
`None`, and a defaulted field absent takes its declared default.  Enum
fields are closed vocabularies: an unrecognized value is an error. -/

/-- A required `int` field. -/
def reqIntField (kvs : PyDict) (name : String) : Except PyErr Int :=
  match getField kvs name with
  | some (.num n) => .ok n
  | some _ => .error (.valueError (name ++ ": a valid integer is required"))
  | none => .error (.valueError (name ++ ": field required"))

/-- A required `str` field. -/
def reqStrField (kvs : PyDict) (name : String) : Except PyErr String :=
  match getField kvs name with
  | some (.str s) => .ok s
  | some _ => .error (.valueError (name ++ ": a valid string is required"))
  | none => .error (.valueError (name ++ ": field required"))

/-- A required `bool` field. -/
def reqBoolField (kvs : PyDict) (name : String) : Except PyErr Bool :=
  match getField kvs name with
  | some (.bool b) => .ok b
  | some _ => .error (.valueError (name ++ ": a valid boolean is required"))
  | none => .error (.valueError (name ++ ": field required"))

/-- An `Optional[int] = None` field. -/
def optIntField (kvs : PyDict) (name : String) : Except PyErr (Option Int) :=
  match getField kvs name with
  | some (.num n) => .ok (some n)
  | some .null => .ok none
  | some _ => .error (.valueError (name ++ ": a valid integer is required"))
  | none => .ok none

/-- An `Optional[str] = None` field. -/
def optStrField (kvs : PyDict) (name : String) : Except PyErr (Option String) :=
  match getField kvs name with
  | some (.str s) => .ok (some s)
  | some .null => .ok none
  | some _ => .error (.valueError (name ++ ": a valid string is required"))
  | none => .ok none

/-- A `bool = <default>` field. -/
def boolFieldD (kvs : PyDict) (name : String) (d : Bool) : Except PyErr Bool :=
  match getField kvs name with
  | some (.bool b) => .ok b
  | some _ => .error (.valueError (name ++ ": a valid boolean is required"))
  | none => .ok d

/-- An `int = <default>` field. -/
def intFieldD (kvs : PyDict) (name : String) (d : Int) : Except PyErr Int :=
  match getField kvs name with
  | some (.num n) => .ok n
  | some _ => .error (.valueError (name ++ ": a valid integer is required"))
  | none => .ok d

/-- A required closed-enum field, decoded through the enum's value set. -/
def reqEnumField (parse : String → Option α) (kvs : PyDict) (name : String) :
    Except PyErr α :=
  match getField kvs name with
  | some (.str s) =>
    match parse s with
    | some v => .ok v
    | none => .error (.valueError (name ++ ": value is not a valid enumeration member"))
  | some _ => .error (.valueError (name ++ ": a valid string is required"))
  | none => .error (.valueError (name ++ ": field required"))

/-- An `Optional[<enum>] = None` field. -/
def optEnumField (parse : String → Option α) (kvs : PyDict) (name : String) :
    Except PyErr (Option α) :=
  match getField kvs name with
  | some (.str s) =>
    match parse s with
    | some v => .ok (some v)
    | none => .error (.valueError (name ++ ": value is not a valid enumeration member"))
  | some .null => .ok none
  | some _ => .error (.valueError (name ++ ": a valid string is required"))
  | none => .ok none

/-- An `Optional[<model>] = None` nested-model field. -/
def optNestedField (dec : Json → Except PyErr α) (kvs : PyDict) (name : String) :
    Except PyErr (Option α) :=
  match getField kvs name with
  | some .null => .ok none
  | some j => (dec j).map some
  | none => .ok none

/-- A required nested-model field. -/
def reqNestedField (dec : Json → Except PyErr α) (kvs : PyDict) (name : String) :
    Except PyErr α :=
  match getField kvs name with
  | some j => dec j
  | none => .error (.valueError (name ++ ": field required"))

/-- A `list[<model>] = Field(default_factory=list)` field. -/
def listFieldD (dec : Json → Except PyErr α) (kvs : PyDict) (name : String) :
    Except PyErr (List α) :=
  match getField kvs name with
  | some (.arr xs) => xs.mapM dec
  | some _ => .error (.valueError (name ++ ": a valid list is required"))
  | none => .ok []

/-- An `Optional[list[<t>]] = None` field, used by the change-delta
records whose values are `[old, new]` pairs. -/
def optListField (dec : Json → Except PyErr α) (kvs : PyDict) (name : String) :
    Except PyErr (Option (List α)) :=
  match getField kvs name with
  | some (.arr xs) => (xs.mapM dec).map some
  | some .null => .ok none
  | some _ => .error (.valueError (name ++ ": a valid list is required"))
  | none => .ok none

/-- An `Optional[Union[int, str]] = None` field (`Order.created_at` in
`webhooks/models.py`): an integer stays an integer, a string stays a
string (pydantic's smart-union keeps the exact input type). -/
def optIntOrStrField (kvs : PyDict) (name : String) :
    Except PyErr (Option (Int ⊕ String)) :=
  match getField kvs name with
  | some (.num n) => .ok (some (.inl n))
  | some (.str s) => .ok (some (.inr s))
  | some .null => .ok none
  | some _ => .error (.valueError (name ++ ": an integer or string is required"))
  | none => .ok none

/-- An `Optional[Any] = None` field: any JSON value is kept verbatim. -/
def optAnyField (kvs : PyDict) (name : String) : Except PyErr (Option Json) :=
  match getField kvs name with
  | some .null => .ok none
  | some j => .ok (some j)
  | none => .ok none

/-- A JSON `int` element of a list. -/
def decJsonInt : Json → Except PyErr Int
  | .num n => .ok n
  | _ => .error (.valueError "a valid integer is required")

/-- A JSON `str` element of a list. -/
def decJsonStr : Json → Except PyErr String
  | .str s => .ok s
  | _ => .error (.valueError "a valid string is required")

/-- A JSON `bool` element of a list. -/
def decJsonBool : Json → Except PyErr Bool
  | .bool b => .ok b
  | _ => .error (.valueError "a valid boolean is required")

/-- The literal-discriminator field `event: str = Field(..., pattern=...)`.
Every event model anchors its pattern as a whole-string regex
(for example `^member_signup$`), so validation is equality with the
literal. -/
def eventLiteralField (kvs : PyDict) (lit : String) : Except PyErr String :=
  match getField kvs "event" with
  | some (.str s) =>
    if s = lit then .ok s
    else .error (.valueError ("event: string does not match pattern " ++ lit))
  | some _ => .error (.valueError "event: a valid string is required")
  | none => .error (.valueError "event: field required")

/-! ## Decoding a model object

`decodeObj` is the shared shape of `Model.model_validate` /
`Model(**payload)` for the `WebhookBaseModel` subclasses of
`webhooks/models.py`: validate the declared fields from the input dict,
then store every unrecognized entry in the model's extras
(`model_config = ConfigDict(extra='allow')`). -/

def decodeObj (core : PyDict → Except PyErr α) (withEx : α → PyDict → α)
    (keys : List String) (errName : String) : Json → Except PyErr α
  | .obj kvs => (core kvs).map (fun a => withEx a (collectExtras keys kvs))
  | _ => .error (.valueError (errName ++ ": value is not a valid dict"))

namespace Models

/-! ## Entity models of `webhooks/models.py`

Each structure mirrors one `WebhookBaseModel` subclass: the declared
fields in declaration order, plus the `extras` bag corresponding to
`__pydantic_extra__`. -/

/-- Member address information. -/
structure Address where
  street : Option String
  city : Option String
  state : Option String
  postal_code : Option String
  country : Option String
  extras : PyDict
deriving Repr

def addressKeys : List String := ["street", "city", "state", "postal_code", "country"]

def addressCore (kvs : PyDict) : Except PyErr Address := do
  let street ← optStrField kvs "street"
  let city ← optStrField kvs "city"
  let state ← optStrField kvs "state"
  let postal_code ← optStrField kvs "postal_code"
  let country ← optStrField kvs "country"
  pure { street, city, state, postal_code, country, extras := [] }

def decodeAddress : Json → Except PyErr Address :=
  decodeObj addressCore (fun a e => { a with extras := e }) addressKeys "Address"

/-- Credit card information. -/
structure CreditCard where
  exp_month : Option Int
  exp_year : Option Int
  last_four : Option String
  brand : Option String
  extras : PyDict
deriving Repr

def creditCardKeys : List String := ["exp_month", "exp_year", "last_four", "brand"]

def creditCardCore (kvs : PyDict) : Except PyErr CreditCard := do
  let exp_month ← optIntField kvs "exp_month"
  let exp_year ← optIntField kvs "exp_year"
  let last_four ← optStrField kvs "last_four"
  let brand ← optStrField kvs "brand"
  pure { exp_month, exp_year, last_four, brand, extras := [] }

def decodeCreditCard : Json → Except PyErr CreditCard :=
  decodeObj creditCardCore (fun a e => { a with extras := e }) creditCardKeys "CreditCard"

/-- UTM tracking parameters. -/
structure TrackingParams where
  utm_term : Option String
  utm_campaign : Option String
  utm_medium : Option String
  utm_source : Option String
  utm_content : Option String
  extras : PyDict
deriving Repr

def trackingParamsKeys : List String :=
  ["utm_term", "utm_campaign", "utm_medium", "utm_source", "utm_content"]

def trackingParamsCore (kvs : PyDict) : Except PyErr TrackingParams := do
  let utm_term ← optStrField kvs "utm_term"
  let utm_campaign ← optStrField kvs "utm_campaign"
  let utm_medium ← optStrField kvs "utm_medium"
  let utm_source ← optStrField kvs "utm_source"
  let utm_content ← optStrField kvs "utm_content"
  pure { utm_term, utm_campaign, utm_medium, utm_source, utm_content, extras := [] }

def decodeTrackingParams : Json → Except PyErr TrackingParams :=
  decodeObj trackingParamsCore (fun a e => { a with extras := e }) trackingParamsKeys
    "TrackingParams"

/-- Subscription plan details: `id`, `name`, `slug` required, the rest
optional or defaulted (`price` and `renewal_period` may be absent in
some webhook contexts; `price_cents` is the platform's alternative
field name). -/
structure SubscriptionPlan where
  id : Int
  name : String
  slug : String
  price : Option Int
  price_cents : Option Int
  renewal_period : Option RenewalPeriod
  interval_unit : Option IntervalUnit
  interval_count : Int
  for_sale : Bool
  type : Option String
  extras : PyDict
deriving Repr

def subscriptionPlanKeys : List String :=
  ["id", "name", "slug", "price", "price_cents", "renewal_period", "interval_unit",
    "interval_count", "for_sale", "type"]

def subscriptionPlanCore (kvs : PyDict) : Except PyErr SubscriptionPlan := do
  let id ← reqIntField kvs "id"
  let name ← reqStrField kvs "name"
  let slug ← reqStrField kvs "slug"
  let price ← optIntField kvs "price"
  let price_cents ← optIntField kvs "price_cents"
  let renewal_period ← optEnumField RenewalPeriod.fromString kvs "renewal_period"
  let interval_unit ← optEnumField IntervalUnit.fromString kvs "interval_unit"
  let interval_count ← intFieldD kvs "interval_count" 1
  let for_sale ← boolFieldD kvs "for_sale" true
  let type ← optStrField kvs "type"
  pure
    { id := id, name := name, slug := slug, price := price,
      price_cents := price_cents, renewal_period := renewal_period,
      interval_unit := interval_unit, interval_count := interval_count,
      for_sale := for_sale, type := type, extras := [] }

def decodeSubscriptionPlan : Json → Except PyErr SubscriptionPlan :=
  decodeObj subscriptionPlanCore (fun a e => { a with extras := e }) subscriptionPlanKeys
    "SubscriptionPlan"

/-- Download/product information. -/
structure Product where
  id : Int
  name : String
  price : Int
  slug : String
  for_sale : Bool
  extras : PyDict
deriving Repr

def productKeys : List String := ["id", "name", "price", "slug", "for_sale"]

def productCore (kvs : PyDict) : Except PyErr Product := do
  let id ← reqIntField kvs "id"
  let name ← reqStrField kvs "name"
  let price ← reqIntField kvs "price"
  let slug ← reqStrField kvs "slug"
  let for_sale ← boolFieldD kvs "for_sale" true
  pure { id, name, price, slug, for_sale, extras := [] }

def decodeProduct : Json → Except PyErr Product :=
  decodeObj productCore (fun a e => { a with extras := e }) productKeys "Product"

end Models

/-- Pass-through element decoder for `list[Any]` values. -/
def decJsonAny : Json → Except PyErr Json := fun j => .ok j

namespace Models

/-- Member subscription details, as embedded in members and orders
(nested plan under the field `subscription`). -/
structure MemberSubscription where
  active : Bool
  created_at : Int
  expires : Bool
  expires_at : Option Int
  id : Int
  in_trial_period : Bool
  subscription : SubscriptionPlan
  trial_end_at : Option Int
  trial_start_at : Option Int
  extras : PyDict
deriving Repr

def memberSubscriptionKeys : List String :=
  ["active", "created_at", "expires", "expires_at", "id", "in_trial_period",
    "subscription", "trial_end_at", "trial_start_at"]

def memberSubscriptionCore (kvs : PyDict) : Except PyErr MemberSubscription := do
  let active ← reqBoolField kvs "active"
  let created_at ← reqIntField kvs "created_at"
  let expires ← reqBoolField kvs "expires"
  let expires_at ← optIntField kvs "expires_at"
  let id ← reqIntField kvs "id"
  let in_trial_period ← boolFieldD kvs "in_trial_period" false
  let subscription ← reqNestedField decodeSubscriptionPlan kvs "subscription"
  let trial_end_at ← optIntField kvs "trial_end_at"
  let trial_start_at ← optIntField kvs "trial_start_at"
  pure
    { active := active, created_at := created_at, expires := expires,
      expires_at := expires_at, id := id, in_trial_period := in_trial_period,
      subscription := subscription, trial_end_at := trial_end_at,
      trial_start_at := trial_start_at, extras := [] }

def decodeMemberSubscription : Json → Except PyErr MemberSubscription :=
  decodeObj memberSubscriptionCore (fun a e => { a with extras := e })
    memberSubscriptionKeys "MemberSubscription"

/-- Member information. -/
structure Member where
  id : Int
  email : String
  first_name : Option String
  last_name : Option String
  full_name : Option String
  username : Option String
  phone_number : Option String
  created_at : Int
  signup_method : Option SignupMethod
  stripe_customer_id : Option String
  discord_user_id : Option String
  unrestricted_access : Bool
  address : Option Address
  credit_card : Option CreditCard
  tracking_params : Option TrackingParams
  custom_field : Option Json
  extras : PyDict
deriving Repr

def memberKeys : List String :=
  ["id", "email", "first_name", "last_name", "full_name", "username",
    "phone_number", "created_at", "signup_method", "stripe_customer_id",
    "discord_user_id", "unrestricted_access", "address", "credit_card",
    "tracking_params", "custom_field"]

def memberCore (kvs : PyDict) : Except PyErr Member := do
  let id ← reqIntField kvs "id"
  let email ← reqStrField kvs "email"
  let first_name ← optStrField kvs "first_name"
  let last_name ← optStrField kvs "last_name"
  let full_name ← optStrField kvs "full_name"
  let username ← optStrField kvs "username"
  let phone_number ← optStrField kvs "phone_number"
  let created_at ← reqIntField kvs "created_at"
  let signup_method ← optEnumField SignupMethod.fromString kvs "signup_method"
  let stripe_customer_id ← optStrField kvs "stripe_customer_id"
  let discord_user_id ← optStrField kvs "discord_user_id"
  let unrestricted_access ← boolFieldD kvs "unrestricted_access" false
  let address ← optNestedField decodeAddress kvs "address"
  let credit_card ← optNestedField decodeCreditCard kvs "credit_card"
  let tracking_params ← optNestedField decodeTrackingParams kvs "tracking_params"
  let custom_field ← optAnyField kvs "custom_field"
  pure
    { id := id, email := email, first_name := first_name, last_name := last_name,
      full_name := full_name, username := username, phone_number := phone_number,
      created_at := created_at, signup_method := signup_method,
      stripe_customer_id := stripe_customer_id, discord_user_id := discord_user_id,
      unrestricted_access := unrestricted_access, address := address,
      credit_card := credit_card, tracking_params := tracking_params,
      custom_field := custom_field, extras := [] }

def decodeMember : Json → Except PyErr Member :=
  decodeObj memberCore (fun a e => { a with extras := e }) memberKeys "Member"

/-- Standalone subscription details for subscription-lifecycle events
(nested plan under `subscription_plan`, with its own `member`; the
datetimes are ISO strings). -/
structure Subscription where
  id : Int
  active : Bool
  autorenew : Bool
  created_at : String
  expires_at : String
  member : Member
  subscription_plan : SubscriptionPlan
  trial_end_at : Option String
  trial_start_at : Option String
  extras : PyDict
deriving Repr

def subscriptionKeys : List String :=
  ["id", "active", "autorenew", "created_at", "expires_at", "member",
    "subscription_plan", "trial_end_at", "trial_start_at"]

def subscriptionCore (kvs : PyDict) : Except PyErr Subscription := do
  let id ← reqIntField kvs "id"
  let active ← reqBoolField kvs "active"
  let autorenew ← reqBoolField kvs "autorenew"
  let created_at ← reqStrField kvs "created_at"
  let expires_at ← reqStrField kvs "expires_at"
  let member ← reqNestedField decodeMember kvs "member"
  let subscription_plan ← reqNestedField decodeSubscriptionPlan kvs "subscription_plan"
  let trial_end_at ← optStrField kvs "trial_end_at"
  let trial_start_at ← optStrField kvs "trial_start_at"
  pure
    { id := id, active := active, autorenew := autorenew, created_at := created_at,
      expires_at := expires_at, member := member,
      subscription_plan := subscription_plan, trial_end_at := trial_end_at,
      trial_start_at := trial_start_at, extras := [] }

def decodeSubscription : Json → Except PyErr Subscription :=
  decodeObj subscriptionCore (fun a e => { a with extras := e }) subscriptionKeys
    "Subscription"

/-- Minimal member information for deleted-member events. -/
structure DeletedMember where
  id : Int
  deleted : Bool
  extras : PyDict
deriving Repr

def deletedMemberKeys : List String := ["id", "deleted"]

def deletedMemberCore (kvs : PyDict) : Except PyErr DeletedMember := do
  let id ← reqIntField kvs "id"
  let deleted ← boolFieldD kvs "deleted" true
  pure { id := id, deleted := deleted, extras := [] }

def decodeDeletedMember : Json → Except PyErr DeletedMember :=
  decodeObj deletedMemberCore (fun a e => { a with extras := e }) deletedMemberKeys
    "DeletedMember"

/-- Changes made to a subscription, each an `[old, new]` pair. -/
structure SubscriptionChanges where
  plan_id : Option (List Int)
  expires_at : Option (List String)
  autorenew : Option (List Bool)
  active : Option (List Bool)
  price : Option (List Int)
  extras : PyDict
deriving Repr

def subscriptionChangesKeys : List String :=
  ["plan_id", "expires_at", "autorenew", "active", "price"]

def subscriptionChangesCore (kvs : PyDict) : Except PyErr SubscriptionChanges := do
  let plan_id ← optListField decJsonInt kvs "plan_id"
  let expires_at ← optListField decJsonStr kvs "expires_at"
  let autorenew ← optListField decJsonBool kvs "autorenew"
  let active ← optListField decJsonBool kvs "active"
  let price ← optListField decJsonInt kvs "price"
  pure
    { plan_id := plan_id, expires_at := expires_at, autorenew := autorenew,
      active := active, price := price, extras := [] }

def decodeSubscriptionChanges : Json → Except PyErr SubscriptionChanges :=
  decodeObj subscriptionChangesCore (fun a e => { a with extras := e })
    subscriptionChangesKeys "SubscriptionChanges"

/-- Changes made to a member, each an `[old, new]` pair. -/
structure MemberChanges where
  email : Option (List String)
  first_name : Option (List String)
  last_name : Option (List String)
  full_name : Option (List String)
  username : Option (List String)
  phone_number : Option (List String)
  discord_user_id : Option (List String)
  stripe_customer_id : Option (List String)
  unrestricted_access : Option (List Bool)
  custom_field : Option (List Json)
  extras : PyDict
deriving Repr

def memberChangesKeys : List String :=
  ["email", "first_name", "last_name", "full_name", "username", "phone_number",
    "discord_user_id", "stripe_customer_id", "unrestricted_access", "custom_field"]

def memberChangesCore (kvs : PyDict) : Except PyErr MemberChanges := do
  let email ← optListField decJsonStr kvs "email"
  let first_name ← optListField decJsonStr kvs "first_name"
  let last_name ← optListField decJsonStr kvs "last_name"
  let full_name ← optListField decJsonStr kvs "full_name"
  let username ← optListField decJsonStr kvs "username"
  let phone_number ← optListField decJsonStr kvs "phone_number"
  let discord_user_id ← optListField decJsonStr kvs "discord_user_id"
  let stripe_customer_id ← optListField decJsonStr kvs "stripe_customer_id"
  let unrestricted_access ← optListField decJsonBool kvs "unrestricted_access"
  let custom_field ← optListField decJsonAny kvs "custom_field"
  pure
    { email := email, first_name := first_name, last_name := last_name,
      full_name := full_name, username := username, phone_number := phone_number,
      discord_user_id := discord_user_id, stripe_customer_id := stripe_customer_id,
      unrestricted_access := unrestricted_access, custom_field := custom_field,
      extras := [] }

def decodeMemberChanges : Json → Except PyErr MemberChanges :=
  decodeObj memberChangesCore (fun a e => { a with extras := e }) memberChangesKeys
    "MemberChanges"

/-- Order information.  `created_at` may arrive as a unix timestamp or
an ISO datetime string; `member` is optional; `products` and
`subscriptions` default to empty lists. -/
structure Order where
  uuid : String
  number : Option String
  total : Int
  status : OrderStatus
  receipt : Option String
  created_at : Option (Int ⊕ String)
  member : Option Member
  products : List Product
  subscriptions : List MemberSubscription
  extras : PyDict
deriving Repr

def orderKeys : List String :=
  ["uuid", "number", "total", "status", "receipt", "created_at", "member",
    "products", "subscriptions"]

def orderCore (kvs : PyDict) : Except PyErr Order := do
  let uuid ← reqStrField kvs "uuid"
  let number ← optStrField kvs "number"
  let total ← reqIntField kvs "total"
  let status ← reqEnumField OrderStatus.fromString kvs "status"
  let receipt ← optStrField kvs "receipt"
  let created_at ← optIntOrStrField kvs "created_at"
  let member ← optNestedField decodeMember kvs "member"
  let products ← listFieldD decodeProduct kvs "products"
  let subscriptions ← listFieldD decodeMemberSubscription kvs "subscriptions"
  pure
    { uuid := uuid, number := number, total := total, status := status,
      receipt := receipt, created_at := created_at, member := member,
      products := products, subscriptions := subscriptions, extras := [] }

def decodeOrder : Json → Except PyErr Order :=
  decodeObj orderCore (fun a e => { a with extras := e }) orderKeys "Order"

end Models

/-! ## Legacy models of `webhook_models.py`

These classes derive from plain pydantic `BaseModel`, whose default
policy is `extra='ignore'`: unknown keys are validated away and
dropped, so the structures carry no extras bag.  Field requirements
also differ from the package models: the legacy `SubscriptionPlan`
requires `price`, `renewal_period` and `interval_unit`, and the legacy
`Order` requires `number` and `member` and types `created_at` as
`Optional[int]` only. -/

/-- `Model.model_validate` for a plain `BaseModel` subclass: validate
the declared fields and silently ignore everything else. -/
def decodeObjStrict (core : PyDict → Except PyErr α) (errName : String) :
    Json → Except PyErr α
  | .obj kvs => core kvs
  | _ => .error (.valueError (errName ++ ": value is not a valid dict"))

namespace Legacy

/-- Member address information (legacy). -/
structure Address where
  street : Option String
  city : Option String
  state : Option String
  postal_code : Option String
  country : Option String
deriving Repr

def decodeAddress : Json → Except PyErr Address :=
  decodeObjStrict (fun kvs => do
    let street ← optStrField kvs "street"
    let city ← optStrField kvs "city"
    let state ← optStrField kvs "state"
    let postal_code ← optStrField kvs "postal_code"
    let country ← optStrField kvs "country"
    pure
      { street := street, city := city, state := state,
        postal_code := postal_code, country := country }) "Address"

/-- Credit card information (legacy). -/
structure CreditCard where
  exp_month : Option Int
  exp_year : Option Int
  last_four : Option String
  brand : Option String
deriving Repr

def decodeCreditCard : Json → Except PyErr CreditCard :=
  decodeObjStrict (fun kvs => do
    let exp_month ← optIntField kvs "exp_month"
    let exp_year ← optIntField kvs "exp_year"
    let last_four ← optStrField kvs "last_four"
    let brand ← optStrField kvs "brand"
    pure
      { exp_month := exp_month, exp_year := exp_year, last_four := last_four,
        brand := brand }) "CreditCard"

/-- UTM tracking parameters (legacy). -/
structure TrackingParams where
  utm_term : Option String
  utm_campaign : Option String
  utm_medium : Option String
  utm_source : Option String
  utm_content : Option String
deriving Repr

def decodeTrackingParams : Json → Except PyErr TrackingParams :=
  decodeObjStrict (fun kvs => do
    let utm_term ← optStrField kvs "utm_term"
    let utm_campaign ← optStrField kvs "utm_campaign"
    let utm_medium ← optStrField kvs "utm_medium"
    let utm_source ← optStrField kvs "utm_source"
    let utm_content ← optStrField kvs "utm_content"
    pure
      { utm_term := utm_term, utm_campaign := utm_campaign,
        utm_medium := utm_medium, utm_source := utm_source,
        utm_content := utm_content }) "TrackingParams"

/-- Subscription plan details (legacy): `id`, `price`, `name`, `slug`,
`renewal_period` and `interval_unit` are all required. -/
structure SubscriptionPlan where
  id : Int
  price : Int
  name : String
  slug : String
  renewal_period : RenewalPeriod
  interval_unit : IntervalUnit
  interval_count : Int
  for_sale : Bool
deriving Repr

def decodeSubscriptionPlan : Json → Except PyErr SubscriptionPlan :=
  decodeObjStrict (fun kvs => do
    let id ← reqIntField kvs "id"
    let price ← reqIntField kvs "price"
    let name ← reqStrField kvs "name"
    let slug ← reqStrField kvs "slug"
    let renewal_period ← reqEnumField RenewalPeriod.fromString kvs "renewal_period"
    let interval_unit ← reqEnumField IntervalUnit.fromString kvs "interval_unit"
    let interval_count ← intFieldD kvs "interval_count" 1
    let for_sale ← boolFieldD kvs "for_sale" true
    pure
      { id := id, price := price, name := name, slug := slug,
        renewal_period := renewal_period, interval_unit := interval_unit,
        interval_count := interval_count, for_sale := for_sale }) "SubscriptionPlan"

/-- Member subscription details (legacy). -/
structure MemberSubscription where
  active : Bool
  created_at : Int
  expires : Bool
  expires_at : Option Int
  id : Int
  in_trial_period : Bool
  subscription : SubscriptionPlan
  trial_end_at : Option Int
  trial_start_at : Option Int
deriving Repr

def decodeMemberSubscription : Json → Except PyErr MemberSubscription :=
  decodeObjStrict (fun kvs => do
    let active ← reqBoolField kvs "active"
    let created_at ← reqIntField kvs "created_at"
    let expires ← reqBoolField kvs "expires"
    let expires_at ← optIntField kvs "expires_at"
    let id ← reqIntField kvs "id"
    let in_trial_period ← boolFieldD kvs "in_trial_period" false
    let subscription ← reqNestedField decodeSubscriptionPlan kvs "subscription"
    let trial_end_at ← optIntField kvs "trial_end_at"
    let trial_start_at ← optIntField kvs "trial_start_at"
    pure
      { active := active, created_at := created_at, expires := expires,
        expires_at := expires_at, id := id, in_trial_period := in_trial_period,
        subscription := subscription, trial_end_at := trial_end_at,
        trial_start_at := trial_start_at }) "MemberSubscription"

/-- Download/product information (legacy). -/
structure Product where
  id : Int
  name : String
  price : Int
  slug : String
  for_sale : Bool
deriving Repr

def decodeProduct : Json → Except PyErr Product :=
  decodeObjStrict (fun kvs => do
    let id ← reqIntField kvs "id"
    let name ← reqStrField kvs "name"
    let price ← reqIntField kvs "price"
    let slug ← reqStrField kvs "slug"
    let for_sale ← boolFieldD kvs "for_sale" true
    pure
      { id := id, name := name, price := price, slug := slug,
        for_sale := for_sale }) "Product"

/-- Member information (legacy). -/
structure Member where
  id : Int
  email : String
  first_name : Option String
  last_name : Option String
  full_name : Option String
  username : Option String
  phone_number : Option String
  created_at : Int
  signup_method : Option SignupMethod
  stripe_customer_id : Option String
  discord_user_id : Option String
  unrestricted_access : Bool
  address : Option Address
  credit_card : Option CreditCard
  tracking_params : Option TrackingParams
  custom_field : Option Json
deriving Repr

def decodeMember : Json → Except PyErr Member :=
  decodeObjStrict (fun kvs => do
    let id ← reqIntField kvs "id"
    let email ← reqStrField kvs "email"
    let first_name ← optStrField kvs "first_name"
    let last_name ← optStrField kvs "last_name"
    let full_name ← optStrField kvs "full_name"
    let username ← optStrField kvs "username"
    let phone_number ← optStrField kvs "phone_number"
    let created_at ← reqIntField kvs "created_at"
    let signup_method ← optEnumField SignupMethod.fromString kvs "signup_method"
    let stripe_customer_id ← optStrField kvs "stripe_customer_id"
    let discord_user_id ← optStrField kvs "discord_user_id"
    let unrestricted_access ← boolFieldD kvs "unrestricted_access" false
    let address ← optNestedField decodeAddress kvs "address"
    let credit_card ← optNestedField decodeCreditCard kvs "credit_card"
    let tracking_params ← optNestedField decodeTrackingParams kvs "tracking_params"
    let custom_field ← optAnyField kvs "custom_field"
    pure
      { id := id, email := email, first_name := first_name,
        last_name := last_name, full_name := full_name, username := username,
        phone_number := phone_number, created_at := created_at,
        signup_method := signup_method, stripe_customer_id := stripe_customer_id,
        discord_user_id := discord_user_id,
        unrestricted_access := unrestricted_access, address := address,
        credit_card := credit_card, tracking_params := tracking_params,
        custom_field := custom_field }) "Member"

/-- Changes made to a subscription (legacy). -/
structure SubscriptionChanges where
  plan_id : Option (List Int)
  expires_at : Option (List String)
  autorenew : Option (List Bool)
  active : Option (List Bool)
  price : Option (List Int)
deriving Repr

def decodeSubscriptionChanges : Json → Except PyErr SubscriptionChanges :=
  decodeObjStrict (fun kvs => do
    let plan_id ← optListField decJsonInt kvs "plan_id"
    let expires_at ← optListField decJsonStr kvs "expires_at"
    let autorenew ← optListField decJsonBool kvs "autorenew"
    let active ← optListField decJsonBool kvs "active"
    let price ← optListField decJsonInt kvs "price"
    pure
      { plan_id := plan_id, expires_at := expires_at, autorenew := autorenew,
        active := active, price := price }) "SubscriptionChanges"

/-- Order information (legacy): `uuid`, `number`, `total`, `status` and
`member` required; `created_at` is an optional unix timestamp only. -/
structure Order where
  uuid : String
  number : String
  total : Int
  status : OrderStatus
  receipt : Option String
  created_at : Option Int
  member : Member
  products : List Product
  subscriptions : List MemberSubscription
deriving Repr

def decodeOrder : Json → Except PyErr Order :=
  decodeObjStrict (fun kvs => do
    let uuid ← reqStrField kvs "uuid"
    let number ← reqStrField kvs "number"
    let total ← reqIntField kvs "total"
    let status ← reqEnumField OrderStatus.fromString kvs "status"
    let receipt ← optStrField kvs "receipt"
    let created_at ← optIntField kvs "created_at"
    let member ← reqNestedField decodeMember kvs "member"
    let products ← listFieldD decodeProduct kvs "products"
    let subscriptions ← listFieldD decodeMemberSubscription kvs "subscriptions"
    pure
      { uuid := uuid, number := number, total := total, status := status,
        receipt := receipt, created_at := created_at, member := member,
        products := products, subscriptions := subscriptions }) "Order"

end Legacy

namespace Legacy

/-! The twelve event models of `webhook_models.py`.  Each fixes its
`event` discriminator with an anchored-pattern `Field`, which amounts
to equality with the literal. -/

/-- `member_signup` webhook event (legacy). -/
structure MemberSignupEvent where
  event : String
  member : Member
deriving Repr

def decodeMemberSignupEvent : Json → Except PyErr MemberSignupEvent :=
  decodeObjStrict (fun kvs => do
    let event ← eventLiteralField kvs "member_signup"
    let member ← reqNestedField decodeMember kvs "member"
    pure { event := event, member := member }) "MemberSignupEvent"

/-- `member_updated` webhook event (legacy). -/
structure MemberUpdatedEvent where
  event : String
  member : Member
  products : List Product
  subscriptions : List MemberSubscription
deriving Repr

def decodeMemberUpdatedEvent : Json → Except PyErr MemberUpdatedEvent :=
  decodeObjStrict (fun kvs => do
    let event ← eventLiteralField kvs "member_updated"
    let member ← reqNestedField decodeMember kvs "member"
    let products ← listFieldD decodeProduct kvs "products"
    let subscriptions ← listFieldD decodeMemberSubscription kvs "subscriptions"
    pure
      { event := event, member := member, products := products,
        subscriptions := subscriptions }) "MemberUpdatedEvent"

/-- `subscription.created` webhook event (legacy shape: the member with
product/subscription lists). -/
structure SubscriptionCreatedEvent where
  event : String
  member : Member
  products : List Product
  subscriptions : List MemberSubscription
deriving Repr

def decodeSubscriptionCreatedEvent : Json → Except PyErr SubscriptionCreatedEvent :=
  decodeObjStrict (fun kvs => do
    let event ← eventLiteralField kvs "subscription.created"
    let member ← reqNestedField decodeMember kvs "member"
    let products ← listFieldD decodeProduct kvs "products"
    let subscriptions ← listFieldD decodeMemberSubscription kvs "subscriptions"
    pure
      { event := event, member := member, products := products,
        subscriptions := subscriptions }) "SubscriptionCreatedEvent"

/-- `subscription.updated` webhook event (legacy shape). -/
structure SubscriptionUpdatedEvent where
  event : String
  member : Member
  products : List Product
  subscriptions : List MemberSubscription
  changed : Option SubscriptionChanges
deriving Repr

def decodeSubscriptionUpdatedEvent : Json → Except PyErr SubscriptionUpdatedEvent :=
  decodeObjStrict (fun kvs => do
    let event ← eventLiteralField kvs "subscription.updated"
    let member ← reqNestedField decodeMember kvs "member"
    let products ← listFieldD decodeProduct kvs "products"
    let subscriptions ← listFieldD decodeMemberSubscription kvs "subscriptions"
    let changed ← optNestedField decodeSubscriptionChanges kvs "changed"
    pure
      { event := event, member := member, products := products,
        subscriptions := subscriptions, changed := changed })
    "SubscriptionUpdatedEvent"

/-- `order.completed` webhook event (legacy). -/
structure OrderCompletedEvent where
  event : String
  order : Order
deriving Repr

def decodeOrderCompletedEvent : Json → Except PyErr OrderCompletedEvent :=
  decodeObjStrict (fun kvs => do
    let event ← eventLiteralField kvs "order.completed"
    let order ← reqNestedField decodeOrder kvs "order"
    pure { event := event, order := order }) "OrderCompletedEvent"

/-- `order.suspended` webhook event (legacy). -/
structure OrderSuspendedEvent where
  event : String
  order : Order
deriving Repr

def decodeOrderSuspendedEvent : Json → Except PyErr OrderSuspendedEvent :=
  decodeObjStrict (fun kvs => do
    let event ← eventLiteralField kvs "order.suspended"
    let order ← reqNestedField decodeOrder kvs "order"
    pure { event := event, order := order }) "OrderSuspendedEvent"

/-- `subscription_plan.created` webhook event (legacy). -/
structure SubscriptionPlanCreatedEvent where
  event : String
  subscription : SubscriptionPlan
deriving Repr

def decodeSubscriptionPlanCreatedEvent :
    Json → Except PyErr SubscriptionPlanCreatedEvent :=
  decodeObjStrict (fun kvs => do
    let event ← eventLiteralField kvs "subscription_plan.created"
    let subscription ← reqNestedField decodeSubscriptionPlan kvs "subscription"
    pure { event := event, subscription := subscription })
    "SubscriptionPlanCreatedEvent"

/-- `subscription_plan.updated` webhook event (legacy). -/
structure SubscriptionPlanUpdatedEvent where
  event : String
  subscription : SubscriptionPlan
deriving Repr

def decodeSubscriptionPlanUpdatedEvent :
    Json → Except PyErr SubscriptionPlanUpdatedEvent :=
  decodeObjStrict (fun kvs => do
    let event ← eventLiteralField kvs "subscription_plan.updated"
    let subscription ← reqNestedField decodeSubscriptionPlan kvs "subscription"
    pure { event := event, subscription := subscription })
    "SubscriptionPlanUpdatedEvent"

/-- `subscription_plan.deleted` webhook event (legacy). -/
structure SubscriptionPlanDeletedEvent where
  event : String
  subscription : SubscriptionPlan
deriving Repr

def decodeSubscriptionPlanDeletedEvent :
    Json → Except PyErr SubscriptionPlanDeletedEvent :=
  decodeObjStrict (fun kvs => do
    let event ← eventLiteralField kvs "subscription_plan.deleted"
    let subscription ← reqNestedField decodeSubscriptionPlan kvs "subscription"
    pure { event := event, subscription := subscription })
    "SubscriptionPlanDeletedEvent"

/-- `download.created` webhook event (legacy). -/
structure DownloadCreatedEvent where
  event : String
  product : Product
deriving Repr

def decodeDownloadCreatedEvent : Json → Except PyErr DownloadCreatedEvent :=
  decodeObjStrict (fun kvs => do
    let event ← eventLiteralField kvs "download.created"
    let product ← reqNestedField decodeProduct kvs "product"
    pure { event := event, product := product }) "DownloadCreatedEvent"

/-- `download.updated` webhook event (legacy). -/
structure DownloadUpdatedEvent where
  event : String
  product : Product
deriving Repr

def decodeDownloadUpdatedEvent : Json → Except PyErr DownloadUpdatedEvent :=
  decodeObjStrict (fun kvs => do
    let event ← eventLiteralField kvs "download.updated"
    let product ← reqNestedField decodeProduct kvs "product"
    pure { event := event, product := product }) "DownloadUpdatedEvent"

/-- `download.deleted` webhook event (legacy). -/
structure DownloadDeletedEvent where
  event : String
  product : Product
deriving Repr

def decodeDownloadDeletedEvent : Json → Except PyErr DownloadDeletedEvent :=
  decodeObjStrict (fun kvs => do
    let event ← eventLiteralField kvs "download.deleted"
    let product ← reqNestedField decodeProduct kvs "product"
    pure { event := event, product := product }) "DownloadDeletedEvent"

/-- The union of all webhook event models of `webhook_models.py`, as a
tagged sum: the runtime class of a parsed event corresponds to the
constructor, so a caller can branch exhaustively on it. -/
inductive WebhookEvent where
  | memberSignup (e : MemberSignupEvent)
  | memberUpdated (e : MemberUpdatedEvent)
  | subscriptionCreated (e : SubscriptionCreatedEvent)
  | subscriptionUpdated (e : SubscriptionUpdatedEvent)
  | orderCompleted (e : OrderCompletedEvent)
  | orderSuspended (e : OrderSuspendedEvent)
  | subscriptionPlanCreated (e : SubscriptionPlanCreatedEvent)
  | subscriptionPlanUpdated (e : SubscriptionPlanUpdatedEvent)
  | subscriptionPlanDeleted (e : SubscriptionPlanDeletedEvent)
  | downloadCreated (e : DownloadCreatedEvent)
  | downloadUpdated (e : DownloadUpdatedEvent)
  | downloadDeleted (e : DownloadDeletedEvent)
deriving Repr

/-- The `event` discriminator stored in a parsed event value. -/
def WebhookEvent.eventName : WebhookEvent → String
  | .memberSignup e => e.event
  | .memberUpdated e => e.event
  | .subscriptionCreated e => e.event
  | .subscriptionUpdated e => e.event
  | .orderCompleted e => e.event
  | .orderSuspended e => e.event
  | .subscriptionPlanCreated e => e.event
  | .subscriptionPlanUpdated e => e.event
  | .subscriptionPlanDeleted e => e.event
  | .downloadCreated e => e.event
  | .downloadUpdated e => e.event
  | .downloadDeleted e => e.event

/-- The discriminator associated with each variant (runtime type) of the
union, independent of the stored data. -/
def WebhookEvent.variantTag : WebhookEvent → String
  | .memberSignup _ => "member_signup"
  | .memberUpdated _ => "member_updated"
  | .subscriptionCreated _ => "subscription.created"
  | .subscriptionUpdated _ => "subscription.updated"
  | .orderCompleted _ => "order.completed"
  | .orderSuspended _ => "order.suspended"
  | .subscriptionPlanCreated _ => "subscription_plan.created"
  | .subscriptionPlanUpdated _ => "subscription_plan.updated"
  | .subscriptionPlanDeleted _ => "subscription_plan.deleted"
  | .downloadCreated _ => "download.created"
  | .downloadUpdated _ => "download.updated"
  | .downloadDeleted _ => "download.deleted"

end Legacy

/-! ## The dispatcher `parse_webhook_payload` (`webhooks.py`) -/

mutual

/-- Python `repr` of a JSON-shaped value, as used for values nested
inside containers by string formatting. -/
def pyRepr : Json → String
  | .null => "None"
  | .bool true => "True"
  | .bool false => "False"
  | .num n => toString n
  | .str s => "\x27" ++ s ++ "\x27"
  | .arr xs => "[" ++ pyReprElems xs ++ "]"
  | .obj kvs => "\x7b" ++ pyReprFields kvs ++ "\x7d"

/-- The comma-separated reprs of the elements of a list. -/
def pyReprElems : List Json → String
  | [] => ""
  | [x] => pyRepr x
  | x :: rest => pyRepr x ++ ", " ++ pyReprElems rest

/-- The comma-separated reprs of the entries of a dict. -/
def pyReprFields : List (String × Json) → String
  | [] => ""
  | [(k, v)] => "\x27" ++ k ++ "\x27: " ++ pyRepr v
  | (k, v) :: rest => "\x27" ++ k ++ "\x27: " ++ pyRepr v ++ ", " ++ pyReprFields rest

end

/-- Python `str` of a JSON-shaped value, the conversion applied by an
f-string interpolation: a string is inserted verbatim, anything else
formats as its repr. -/
def pyStr : Json → String
  | .str s => s
  | j => pyRepr j

/-- Python `str` applied to the result of `dict.get`: a missing key is
`None`. -/
def pyStrOpt : Option Json → String
  | none => "None"
  | some j => pyStr j

/-- `parse_webhook_payload` from `webhooks.py`: look up the payload's
`event` value, compare it against the twelve known discriminator
literals in order, construct the matching legacy event model from the
payload, and otherwise raise
`ValueError(f'Unsupported event type: {event_type}')`.  The equality
chain of the source compares `payload.get('event')` with string
literals, which only a string value can match, so the comparison is
split on the shape of the value. -/
def parse_webhook_payload (payload : PyDict) : Except PyErr Legacy.WebhookEvent :=
  match getField payload "event" with
  | some (.str s) =>
    if s = "member_signup" then
      (Legacy.decodeMemberSignupEvent (.obj payload)).map .memberSignup
    else if s = "member_updated" then
      (Legacy.decodeMemberUpdatedEvent (.obj payload)).map .memberUpdated
    else if s = "subscription.created" then
      (Legacy.decodeSubscriptionCreatedEvent (.obj payload)).map .subscriptionCreated
    else if s = "subscription.updated" then
      (Legacy.decodeSubscriptionUpdatedEvent (.obj payload)).map .subscriptionUpdated
    else if s = "order.completed" then
      (Legacy.decodeOrderCompletedEvent (.obj payload)).map .orderCompleted
    else if s = "order.suspended" then
      (Legacy.decodeOrderSuspendedEvent (.obj payload)).map .orderSuspended
    else if s = "subscription_plan.created" then
      (Legacy.decodeSubscriptionPlanCreatedEvent (.obj payload)).map
        .subscriptionPlanCreated
    else if s = "subscription_plan.updated" then
      (Legacy.decodeSubscriptionPlanUpdatedEvent (.obj payload)).map
        .subscriptionPlanUpdated
    else if s = "subscription_plan.deleted" then
      (Legacy.decodeSubscriptionPlanDeletedEvent (.obj payload)).map
        .subscriptionPlanDeleted
    else if s = "download.created" then
      (Legacy.decodeDownloadCreatedEvent (.obj payload)).map .downloadCreated
    else if s = "download.updated" then
      (Legacy.decodeDownloadUpdatedEvent (.obj payload)).map .downloadUpdated
    else if s = "download.deleted" then
      (Legacy.decodeDownloadDeletedEvent (.obj payload)).map .downloadDeleted
    else
      .error (.valueError ("Unsupported event type: " ++ s))
  | other => .error (.valueError ("Unsupported event type: " ++ pyStrOpt other))

/-- The set of discriminator strings the dispatcher's equality chain
accepts, in source order. -/
def dispatcherDiscriminators : List String :=
  ["member_signup", "member_updated", "subscription.created",
    "subscription.updated", "order.completed", "order.suspended",
    "subscription_plan.created", "subscription_plan.updated",
    "subscription_plan.deleted", "download.created", "download.updated",
    "download.deleted"]

/-! ## HMAC-SHA-256 (`hmac.new(secret, payload, hashlib.sha256).hexdigest()`)

A concrete, executable implementation of the two standard-library
calls of `verify_signature`: SHA-256 per FIPS 180-4 and HMAC per
RFC 2104, over byte lists, with 32-bit words as naturals reduced
modulo `2^32`. -/

/-- Truncation to a 32-bit word. -/
def w32 (n : Nat) : Nat := n % 4294967296

/-- 32-bit modular addition. -/
def wadd (a b : Nat) : Nat := (a + b) % 4294967296

/-- 32-bit right rotation. -/
def rotr (n x : Nat) : Nat := w32 ((x >>> n) ||| (x <<< (32 - n)))

/-- 32-bit complement. -/
def wnot (x : Nat) : Nat := Nat.xor (w32 x) 4294967295

/-- SHA-256 `Ch(x, y, z)`. -/
def chFun (x y z : Nat) : Nat := Nat.xor (Nat.land x y) (Nat.land (wnot x) z)

/-- SHA-256 `Maj(x, y, z)`. -/
def majFun (x y z : Nat) : Nat :=
  Nat.xor (Nat.xor (Nat.land x y) (Nat.land x z)) (Nat.land y z)

/-- SHA-256 `Σ₀`. -/
def bsig0 (x : Nat) : Nat := Nat.xor (Nat.xor (rotr 2 x) (rotr 13 x)) (rotr 22 x)

/-- SHA-256 `Σ₁`. -/
def bsig1 (x : Nat) : Nat := Nat.xor (Nat.xor (rotr 6 x) (rotr 11 x)) (rotr 25 x)

/-- SHA-256 `σ₀`. -/
def ssig0 (x : Nat) : Nat := Nat.xor (Nat.xor (rotr 7 x) (rotr 18 x)) (x >>> 3)

/-- SHA-256 `σ₁`. -/
def ssig1 (x : Nat) : Nat := Nat.xor (Nat.xor (rotr 17 x) (rotr 19 x)) (x >>> 10)

/-- The SHA-256 round constants. -/
def sha256K : List Nat :=
  [1116352408, 1899447441, 3049323471, 3921009573, 961987163,
    1508970993, 2453635748, 2870763221, 3624381080, 310598401,
    607225278, 1426881987, 1925078388, 2162078206, 2614888103,
    3248222580, 3835390401, 4022224774, 264347078, 604807628,
    770255983, 1249150122, 1555081692, 1996064986, 2554220882,
    2821834349, 2952996808, 3210313671, 3336571891, 3584528711,
    113926993, 338241895, 666307205, 773529912, 1294757372,
    1396182291, 1695183700, 1986661051, 2177026350, 2456956037,
    2730485921, 2820302411, 3259730800, 3345764771, 3516065817,
    3600352804, 4094571909, 275423344, 430227734, 506948616,
    659060556, 883997877, 958139571, 1322822218, 1537002063,
    1747873779, 1955562222, 2024104815, 2227730452, 2361852424,
    2428436474, 2756734187, 3204031479, 3329325298]

/-- The eight SHA-256 hash words. -/
structure Sha256State where
  h0 : Nat
  h1 : Nat
  h2 : Nat
  h3 : Nat
  h4 : Nat
  h5 : Nat
  h6 : Nat
  h7 : Nat
deriving Repr

/-- The SHA-256 initial hash value. -/
def sha256Init : Sha256State :=
  ⟨1779033703, 3144134277, 1013904242, 2773480762,
    1359893119, 2600822924, 528734635, 1541459225⟩

/-- The eight working registers of the compression loop. -/
structure Sha256Regs where
  ra : Nat
  rb : Nat
  rc : Nat
  rd : Nat
  re : Nat
  rf : Nat
  rg : Nat
  rh : Nat

/-- A number as `k` big-endian bytes. -/
def beBytes : Nat → Nat → List Nat
  | 0, _ => []
  | k + 1, n => beBytes k (n >>> 8) ++ [Nat.land n 255]

/-- FIPS 180-4 padding: append `0x80`, zeros to 56 mod 64, and the
64-bit big-endian bit length. -/
def padMessage (msg : List Nat) : List Nat :=
  msg ++ [0x80] ++ List.replicate ((119 - msg.length % 64) % 64) 0 ++
    beBytes 8 (8 * msg.length)

/-- Big-endian 32-bit words from bytes. -/
def bytesToWords : List Nat → List Nat
  | b0 :: b1 :: b2 :: b3 :: rest =>
    (Nat.lor (Nat.lor (Nat.lor (b0 <<< 24) (b1 <<< 16)) (b2 <<< 8)) b3) ::
      bytesToWords rest
  | _ => []

/-- Split a word list into 16-word blocks (fueled to stay structural). -/
def toBlocks : Nat → List Nat → List (List Nat)
  | 0, _ => []
  | _, [] => []
  | fuel + 1, ws => ws.take 16 :: toBlocks fuel (ws.drop 16)

/-- One extension step of the message schedule, on the reversed
schedule (most recent word first). -/
def scheduleStep (revW : List Nat) : List Nat :=
  wadd (wadd (ssig1 (revW.getD 1 0)) (revW.getD 6 0))
      (wadd (ssig0 (revW.getD 14 0)) (revW.getD 15 0)) :: revW

/-- The 64-word message schedule of a 16-word block. -/
def schedule (block : List Nat) : List Nat :=
  (scheduleStep^[48] block.reverse).reverse

/-- One round of the SHA-256 compression function. -/
def sha256Round (r : Sha256Regs) (kw : Nat × Nat) : Sha256Regs :=
  let t1 := wadd (wadd (wadd r.rh (bsig1 r.re)) (wadd (chFun r.re r.rf r.rg) kw.1))
    kw.2
  let t2 := wadd (bsig0 r.ra) (majFun r.ra r.rb r.rc)
  ⟨wadd t1 t2, r.ra, r.rb, r.rc, wadd r.rd t1, r.re, r.rf, r.rg⟩

/-- Compress one 16-word block into the running hash. -/
def compressBlock (st : Sha256State) (block : List Nat) : Sha256State :=
  let regs : Sha256Regs := ⟨st.h0, st.h1, st.h2, st.h3, st.h4, st.h5, st.h6, st.h7⟩
  let fin := (sha256K.zip (schedule block)).foldl sha256Round regs
  ⟨wadd st.h0 fin.ra, wadd st.h1 fin.rb, wadd st.h2 fin.rc, wadd st.h3 fin.rd,
    wadd st.h4 fin.re, wadd st.h5 fin.rf, wadd st.h6 fin.rg, wadd st.h7 fin.rh⟩

/-- SHA-256 of a byte list, as the eight hash words. -/
def sha256Hash (msg : List Nat) : Sha256State :=
  let ws := bytesToWords (padMessage msg)
  (toBlocks ws.length ws).foldl compressBlock sha256Init

/-- The four big-endian bytes of a 32-bit word. -/
def wordBytes (w : Nat) : List Nat :=
  [Nat.land (w >>> 24) 255, Nat.land (w >>> 16) 255, Nat.land (w >>> 8) 255,
    Nat.land w 255]

/-- SHA-256 of a byte list, as 32 digest bytes. -/
def sha256Bytes (msg : List Nat) : List Nat :=
  let st := sha256Hash msg
  wordBytes st.h0 ++ wordBytes st.h1 ++ wordBytes st.h2 ++ wordBytes st.h3 ++
    wordBytes st.h4 ++ wordBytes st.h5 ++ wordBytes st.h6 ++ wordBytes st.h7

/-- HMAC-SHA-256 (RFC 2104): hash the key down if long, zero-pad it to
the 64-byte block, and nest the two keyed hashes. -/
def hmacSha256 (key msg : List Nat) : Sha256State :=
  let k0 := if 64 < key.length then sha256Bytes key else key
  let kpad := k0 ++ List.replicate (64 - k0.length) 0
  let ipadded := kpad.map (fun b => Nat.xor b 0x36)
  let opadded := kpad.map (fun b => Nat.xor b 0x5c)
  sha256Hash (opadded ++ sha256Bytes (ipadded ++ msg))

/-- The UTF-8 bytes of one character (`str.encode('utf-8')`). -/
def utf8Char (c : Char) : List Nat :=
  let n := c.toNat
  if n < 0x80 then [n]
  else if n < 0x800 then
    [Nat.lor 0xC0 (n >>> 6), Nat.lor 0x80 (Nat.land n 0x3F)]
  else if n < 0x10000 then
    [Nat.lor 0xE0 (n >>> 12), Nat.lor 0x80 (Nat.land (n >>> 6) 0x3F),
      Nat.lor 0x80 (Nat.land n 0x3F)]
  else
    [Nat.lor 0xF0 (n >>> 18), Nat.lor 0x80 (Nat.land (n >>> 12) 0x3F),
      Nat.lor 0x80 (Nat.land (n >>> 6) 0x3F), Nat.lor 0x80 (Nat.land n 0x3F)]

/-- The UTF-8 bytes of a string (`str.encode('utf-8')`). -/
def utf8Bytes (s : String) : List Nat :=
  s.data.foldr (fun c acc => utf8Char c ++ acc) []

/-- A nibble as a lower-case hexadecimal character. -/
def hexChar : Nat → Char
  | 0 => '0' | 1 => '1' | 2 => '2' | 3 => '3' | 4 => '4' | 5 => '5'
  | 6 => '6' | 7 => '7' | 8 => '8' | 9 => '9' | 10 => 'a' | 11 => 'b'
  | 12 => 'c' | 13 => 'd' | 14 => 'e' | 15 => 'f' | _ => '0'

/-- The eight hex characters of a 32-bit word. -/
def wordHex (w : Nat) : List Char :=
  [hexChar (Nat.land (w >>> 28) 15), hexChar (Nat.land (w >>> 24) 15),
    hexChar (Nat.land (w >>> 20) 15), hexChar (Nat.land (w >>> 16) 15),
    hexChar (Nat.land (w >>> 12) 15), hexChar (Nat.land (w >>> 8) 15),
    hexChar (Nat.land (w >>> 4) 15), hexChar (Nat.land w 15)]

/-- `.hexdigest()`: the 64 lower-case hex characters of a hash value. -/
def stateHex (st : Sha256State) : String :=
  ⟨wordHex st.h0 ++ wordHex st.h1 ++ wordHex st.h2 ++ wordHex st.h3 ++
    wordHex st.h4 ++ wordHex st.h5 ++ wordHex st.h6 ++ wordHex st.h7⟩

/-- `hmac.new(secret.encode('utf-8'), payload.encode('utf-8'),
hashlib.sha256).hexdigest()`. -/
def hmac_sha256_hexdigest (secret payload : String) : String :=
  stateHex (hmacSha256 (utf8Bytes secret) (utf8Bytes payload))

/-! ## `WebhookHandler.verify_signature` (`webhooks.py`) -/

/-- Boolean list-prefix test over characters. -/
def listIsPrefixOf : List Char → List Char → Bool
  | [], _ => true
  | _ :: _, [] => false
  | p :: ps, c :: cs => p == c && listIsPrefixOf ps cs

/-- Python `str.removeprefix`: drop the prefix when present, otherwise
return the string unchanged. -/
def removePrefixPy (pre s : String) : String :=
  if listIsPrefixOf pre.data s.data then ⟨s.data.drop pre.data.length⟩ else s

/-- An ASCII character (code point below 128). -/
def isAsciiChar (c : Char) : Bool := c.toNat < 128

/-- An ASCII string, in CPython's sense (`PyUnicode_IS_ASCII`). -/
def isAsciiStr (s : String) : Bool := s.data.all isAsciiChar

/-- `hmac.compare_digest` on two `str` arguments: both must be ASCII
(CPython raises
`TypeError: comparing strings with non-ASCII characters is not supported`
otherwise), and the comparison itself is equality evaluated in constant
time. -/
def compare_digest (a b : String) : Except PyErr Bool :=
  if isAsciiStr a then
    if isAsciiStr b then .ok (a == b)
    else .error (.typeError "comparing strings with non-ASCII characters is not supported")
  else .error (.typeError "comparing strings with non-ASCII characters is not supported")

/-- Python truthiness of an `Optional[str]`: `None` and the empty
string are falsy. -/
def pyTruthyOptStr : Option String → Bool
  | none => false
  | some s => !(s == "")

/-- `WebhookHandler.verify_signature`: raise `ValueError` when no
secret key is configured (`if not self.secret_key`), strip an optional
`sha256=` prefix from the supplied signature, compute the HMAC-SHA-256
hex digest of the payload under the secret, and compare with
`hmac.compare_digest`. -/
def verify_signature (secret_key : Option String) (payload signature : String) :
    Except PyErr Bool :=
  if pyTruthyOptStr secret_key then
    match secret_key with
    | some sk =>
      compare_digest (hmac_sha256_hexdigest sk payload)
        (removePrefixPy "sha256=" signature)
    | none => .error (.valueError "Secret key is required for signature verification")
  else .error (.valueError "Secret key is required for signature verification")

/-! ## `WebhookHandler.process_webhook` (`webhooks.py`) -/

/-- The nine members of the `WebhookEventType` enum. -/
inductive WebhookEventType where
  | memberCreated | memberUpdated | memberDeactivated
  | subscriptionCreated | subscriptionUpdated | subscriptionExpired
  | subscriptionRenewed | orderCompleted | orderRefunded
deriving DecidableEq, Repr

/-- `WebhookEventType(value)` wrapped in `try/except ValueError`: the
enum member with the given value, if any (the `event_type` property of
`WebhookPayload`). -/
def WebhookEventType.fromString : String → Option WebhookEventType
  | "member.created" => some .memberCreated
  | "member.updated" => some .memberUpdated
  | "member.deactivated" => some .memberDeactivated
  | "subscription.created" => some .subscriptionCreated
  | "subscription.updated" => some .subscriptionUpdated
  | "subscription.expired" => some .subscriptionExpired
  | "subscription.renewed" => some .subscriptionRenewed
  | "order.completed" => some .orderCompleted
  | "order.refunded" => some .orderRefunded
  | _ => none

/-- The base webhook payload structure (`WebhookPayload`): `event`,
`data` and `timestamp` are required; a plain `BaseModel`, so unknown
keys are ignored. -/
structure WebhookPayload where
  event : String
  data : PyDict
  timestamp : Int
deriving Repr

/-- A required `dict[str, Any]` field. -/
def reqDictField (kvs : PyDict) (name : String) : Except PyErr PyDict :=
  match getField kvs name with
  | some (.obj fields) => .ok fields
  | some _ => .error (.valueError (name ++ ": a valid dict is required"))
  | none => .error (.valueError (name ++ ": field required"))

/-- `WebhookPayload(**data)`: keyword expansion requires a mapping
(otherwise Python raises a `TypeError` that the pipeline does not
catch), then the three declared fields are validated. -/
def decodeWebhookPayload : Json → Except PyErr WebhookPayload
  | .obj kvs => do
    let event ← reqStrField kvs "event"
    let data ← reqDictField kvs "data"
    let timestamp ← reqIntField kvs "timestamp"
    pure { event := event, data := data, timestamp := timestamp }
  | _ => .error (.typeError "argument of type unpacking must be a mapping")

/-- A handler registration: the event type it was registered for and an
identifier standing for the callable. -/
abbrev HandlerRegistry := List (WebhookEventType × Nat)

/-- The parse-and-dispatch tail of `process_webhook`, after the
signature check: JSON-decode the body (decode failures and pydantic
validation failures are re-raised as
`ValueError(f'Invalid webhook payload: {e}')`), then call every handler
registered for the payload's event type.  Handler invocations are
recorded as (handler, data) pairs; the handlers' own exceptions are
swallowed by the source, so invocation order and arguments are the
observable effect. -/
def parse_and_handle (jsonLoads : String → Except String Json)
    (handlers : HandlerRegistry) (payload : String) :
    Except PyErr (WebhookPayload × List (Nat × PyDict)) :=
  match jsonLoads payload with
  | .error e => .error (.valueError ("Invalid webhook payload: " ++ e))
  | .ok j =>
    match decodeWebhookPayload j with
    | .error (.valueError m) => .error (.valueError ("Invalid webhook payload: " ++ m))
    | .error (.typeError m) => .error (.typeError m)
    | .ok wp =>
      let calls :=
        match WebhookEventType.fromString wp.event with
        | none => []
        | some et => (handlers.filter (fun hr => hr.1 = et)).map
            (fun hr => (hr.2, wp.data))
      .ok (wp, calls)

/-- `WebhookHandler.process_webhook`: verify the signature only when
both a signature was supplied and a secret key is configured
(`if signature and self.secret_key`), failing with
`ValueError('Invalid webhook signature')` when verification returns
false; then parse the payload and run the registered handlers.
`json.loads` is the standard library's JSON parser, taken here as a
parameter. -/
def process_webhook (jsonLoads : String → Except String Json)
    (secret_key : Option String) (handlers : HandlerRegistry)
    (payload : String) (signature : Option String) :
    Except PyErr (WebhookPayload × List (Nat × PyDict)) :=
  if pyTruthyOptStr signature && pyTruthyOptStr secret_key then
    match signature with
    | some sig =>
      match verify_signature secret_key payload sig with
      | .error e => .error e
      | .ok false => .error (.valueError "Invalid webhook signature")
      | .ok true => parse_and_handle jsonLoads handlers payload
    | none => parse_and_handle jsonLoads handlers payload
  else parse_and_handle jsonLoads handlers payload

instance : DecidableEq (Except PyErr Bool) := fun a b =>
  match a, b with
  | .ok x, .ok y => if h : x = y then .isTrue (by rw [h]) else
      .isFalse (by intro he; cases he; exact h rfl)
  | .error x, .error y => if h : x = y then .isTrue (by rw [h]) else
      .isFalse (by intro he; cases he; exact h rfl)
  | .ok _, .error _ => .isFalse (by intro he; cases he)
  | .error _, .ok _ => .isFalse (by intro he; cases he)

/-! ## Dispatcher claims -/

/-- Spec-side definition, following the specification's words: the
eighteen discriminator strings listed in the external-interface section
(member_signup, subscription.created, subscription.activated,
subscription.deactivated, subscription.deleted, subscription.renewed,
order.purchased, order.refunded, order.completed, order.suspended, the
three subscription_plan and three download events, member.deleted and
member_updated).  Used only to compare the dispatcher's accepted set
against the specified set. -/
def specDiscriminators : List String :=
  ["member_signup", "subscription.created", "subscription.activated",
    "subscription.deactivated", "subscription.deleted", "subscription.renewed",
    "order.purchased", "order.refunded", "order.completed", "order.suspended",
    "subscription_plan.created", "subscription_plan.updated",
    "subscription_plan.deleted", "download.created", "download.updated",
    "download.deleted", "member.deleted", "member_updated"]

/-- A minimal valid member object for the legacy `Member` model. -/
def minimalMemberJson : Json :=
  .obj [("id", .num 1), ("email", .str "a@b.c"), ("created_at", .num 0)]

/-- A minimal valid plan object for the legacy `SubscriptionPlan` model
(which requires `price`, `renewal_period` and `interval_unit`). -/
def minimalPlanJson : Json :=
  .obj [("id", .num 0), ("price", .num 1000), ("name", .str "Sample plan"),
    ("slug", .str "0-sample-plan"), ("renewal_period", .str "monthly"),
    ("interval_unit", .str "month")]

/-- A minimal valid product object for the legacy `Product` model. -/
def minimalProductJson : Json :=
  .obj [("id", .num 1), ("name", .str "Download"), ("price", .num 500),
    ("slug", .str "download")]

/-- A minimal valid order object for the legacy `Order` model (which
requires `uuid`, `number`, `total`, `status` and `member`). -/
def minimalOrderJson : Json :=
  .obj [("uuid", .str "4DACB7B0"), ("number", .str "1"), ("total", .num 9900),
    ("status", .str "completed"), ("member", minimalMemberJson)]

/-- A minimal valid payload for each discriminator the dispatcher
accepts: the `event` value together with the one payload key the
matching legacy event model requires. -/
def minimalPayload (d : String) : PyDict :=
  if d = "member_signup" ∨ d = "member_updated" ∨ d = "subscription.created" ∨
      d = "subscription.updated" then
    [("event", .str d), ("member", minimalMemberJson)]
  else if d = "order.completed" ∨ d = "order.suspended" then
    [("event", .str d), ("order", minimalOrderJson)]
  else if d = "subscription_plan.created" ∨ d = "subscription_plan.updated" ∨
      d = "subscription_plan.deleted" then
    [("event", .str d), ("subscription", minimalPlanJson)]
  else
    [("event", .str d), ("product", minimalProductJson)]

/-- The concrete plan object of the claim: no `price`, no
`renewal_period`. -/
def samplePlanJson : Json :=
  .obj [("id", .num 0), ("name", .str "Sample plan"), ("slug", .str "0-sample-plan"),
    ("type", .str "standard_plan")]

/-- A legacy order object that is valid except that `created_at` is the
ISO datetime string of the claim. -/
def legacyOrderStrCreatedJson : Json :=
  .obj [("uuid", .str "4DACB7B0"), ("number", .str "1"), ("total", .num 9900),
    ("status", .str "completed"), ("created_at", .str "2022-01-01T00:00:00Z"),
    ("member", minimalMemberJson)]

/-- The same legacy order object with the integer timestamp instead. -/
def legacyOrderIntCreatedJson : Json :=
  .obj [("uuid", .str "4DACB7B0"), ("number", .str "1"), ("total", .num 9900),
    ("status", .str "completed"), ("created_at", .num 1640995200),
    ("member", minimalMemberJson)]

/-- The minimal member input of the C4 witness. -/
def memberBaseKvs : PyDict :=
  [("id", .num 123), ("email", .str "test@example.com"),
    ("created_at", .num 1640995200)]

/-- The decode of `memberBaseKvs` under the package `Member` model. -/
def memberBaseDecoded : Models.Member :=
  { id := 123, email := "test@example.com", first_name := none, last_name := none,
    full_name := none, username := none, phone_number := none,
    created_at := 1640995200, signup_method := none, stripe_customer_id := none,
    discord_user_id := none, unrestricted_access := false, address := none,
    credit_card := none, tracking_params := none, custom_field := none,
    extras := [] }

/-! ## Theorems -/

theorem getField_cons_ne {k name : String} (v : Json) (kvs : PyDict)
    (h : k ≠ name) : getField ((k, v) :: kvs) name = getField kvs name := by
  simp [getField, h]

theorem collectExtras_cons_not_mem {k : String} (v : Json) (declared : List String)
    (kvs : PyDict) (h : k ∉ declared) :
    collectExtras declared ((k, v) :: kvs) = (k, v) :: collectExtras declared kvs := by
  simp [collectExtras, List.filter, h]

/-! Every helper looks the input dict up only at its own field name, so
prepending an entry with a different key changes nothing. -/

theorem reqIntField_cons {k name : String} (v : Json) (kvs : PyDict) (h : k ≠ name) :
    reqIntField ((k, v) :: kvs) name = reqIntField kvs name := by
  simp [reqIntField, getField_cons_ne v kvs h]

theorem reqStrField_cons {k name : String} (v : Json) (kvs : PyDict) (h : k ≠ name) :
    reqStrField ((k, v) :: kvs) name = reqStrField kvs name := by
  simp [reqStrField, getField_cons_ne v kvs h]

theorem reqBoolField_cons {k name : String} (v : Json) (kvs : PyDict) (h : k ≠ name) :
    reqBoolField ((k, v) :: kvs) name = reqBoolField kvs name := by
  simp [reqBoolField, getField_cons_ne v kvs h]

theorem optIntField_cons {k name : String} (v : Json) (kvs : PyDict) (h : k ≠ name) :
    optIntField ((k, v) :: kvs) name = optIntField kvs name := by
  simp [optIntField, getField_cons_ne v kvs h]

theorem optStrField_cons {k name : String} (v : Json) (kvs : PyDict) (h : k ≠ name) :
    optStrField ((k, v) :: kvs) name = optStrField kvs name := by
  simp [optStrField, getField_cons_ne v kvs h]

theorem boolFieldD_cons {k name : String} (v : Json) (kvs : PyDict) (d : Bool)
    (h : k ≠ name) : boolFieldD ((k, v) :: kvs) name d = boolFieldD kvs name d := by
  simp [boolFieldD, getField_cons_ne v kvs h]

theorem intFieldD_cons {k name : String} (v : Json) (kvs : PyDict) (d : Int)
    (h : k ≠ name) : intFieldD ((k, v) :: kvs) name d = intFieldD kvs name d := by
  simp [intFieldD, getField_cons_ne v kvs h]

theorem reqEnumField_cons (parse : String → Option α) {k name : String} (v : Json)
    (kvs : PyDict) (h : k ≠ name) :
    reqEnumField parse ((k, v) :: kvs) name = reqEnumField parse kvs name := by
  simp [reqEnumField, getField_cons_ne v kvs h]

theorem optEnumField_cons (parse : String → Option α) {k name : String} (v : Json)
    (kvs : PyDict) (h : k ≠ name) :
    optEnumField parse ((k, v) :: kvs) name = optEnumField parse kvs name := by
  simp [optEnumField, getField_cons_ne v kvs h]

theorem optNestedField_cons (dec : Json → Except PyErr α) {k name : String} (v : Json)
    (kvs : PyDict) (h : k ≠ name) :
    optNestedField dec ((k, v) :: kvs) name = optNestedField dec kvs name := by
  simp [optNestedField, getField_cons_ne v kvs h]

theorem reqNestedField_cons (dec : Json → Except PyErr α) {k name : String} (v : Json)
    (kvs : PyDict) (h : k ≠ name) :
    reqNestedField dec ((k, v) :: kvs) name = reqNestedField dec kvs name := by
  simp [reqNestedField, getField_cons_ne v kvs h]

theorem listFieldD_cons (dec : Json → Except PyErr α) {k name : String} (v : Json)
    (kvs : PyDict) (h : k ≠ name) :
    listFieldD dec ((k, v) :: kvs) name = listFieldD dec kvs name := by
  simp [listFieldD, getField_cons_ne v kvs h]

theorem optListField_cons (dec : Json → Except PyErr α) {k name : String} (v : Json)
    (kvs : PyDict) (h : k ≠ name) :
    optListField dec ((k, v) :: kvs) name = optListField dec kvs name := by
  simp [optListField, getField_cons_ne v kvs h]

theorem optIntOrStrField_cons {k name : String} (v : Json) (kvs : PyDict)
    (h : k ≠ name) :
    optIntOrStrField ((k, v) :: kvs) name = optIntOrStrField kvs name := by
  simp [optIntOrStrField, getField_cons_ne v kvs h]

theorem optAnyField_cons {k name : String} (v : Json) (kvs : PyDict) (h : k ≠ name) :
    optAnyField ((k, v) :: kvs) name = optAnyField kvs name := by
  simp [optAnyField, getField_cons_ne v kvs h]

theorem eventLiteralField_cons {k : String} (v : Json) (kvs : PyDict) (lit : String)
    (h : k ≠ "event") :
    eventLiteralField ((k, v) :: kvs) lit = eventLiteralField kvs lit := by
  simp [eventLiteralField, getField_cons_ne v kvs h]

/-- Decoding looks at declared keys only for the typed fields, so an
input entry under a fresh undeclared key flows into the extras and
changes nothing else. -/
theorem decodeObj_extra_key (core : PyDict → Except PyErr α) (withEx : α → PyDict → α)
    (keys : List String) (errName : String) (proj : α → PyDict)
    (hcore : ∀ (k : String) (v : Json) (kvs : PyDict), k ∉ keys →
      core ((k, v) :: kvs) = core kvs)
    (hupd : ∀ a e₁ e₂, withEx (withEx a e₁) e₂ = withEx a e₂)
    (hproj : ∀ a e, proj (withEx a e) = e)
    {k : String} {v : Json} {kvs : PyDict} {m : α} (hk : k ∉ keys)
    (hm : decodeObj core withEx keys errName (.obj kvs) = .ok m) :
    decodeObj core withEx keys errName (.obj ((k, v) :: kvs)) =
      .ok (withEx m ((k, v) :: proj m)) := by
  cases hc : core kvs with
  | error e => simp [decodeObj, hc, Except.map] at hm
  | ok a =>
    simp only [decodeObj, hc, Except.map] at hm
    injection hm with hm
    simp only [decodeObj, hcore k v kvs hk, hc, Except.map,
      collectExtras_cons_not_mem v keys kvs hk, Except.ok.injEq]
    rw [← hm, hproj, hupd]

/-! ## Digest-shape lemmas

The hex digest of any hash value is 64 ASCII characters none of which
is the letter of the `sha256=` tag that matters, so the digest itself
never loses characters to the prefix strip, and it always passes the
ASCII precondition of `hmac.compare_digest`. -/

theorem hexChar_ascii (n : Nat) : isAsciiChar (hexChar n) = true := by
  unfold hexChar
  split <;> decide

theorem beq_h_hexChar (n : Nat) : (('h' : Char) == hexChar n) = false := by
  unfold hexChar
  split <;> decide

theorem isAsciiStr_stateHex (st : Sha256State) : isAsciiStr (stateHex st) = true := by
  simp [isAsciiStr, stateHex, wordHex, hexChar_ascii]

theorem length_data_stateHex (st : Sha256State) : (stateHex st).data.length = 64 := by
  simp [stateHex, wordHex]

theorem listIsPrefixOf_self_append (p x : List Char) :
    listIsPrefixOf p (p ++ x) = true := by
  induction p with
  | nil => simp [listIsPrefixOf]
  | cons c cs ih => simp [listIsPrefixOf, ih]

theorem sha_tag_not_prefix_of_stateHex (st : Sha256State) :
    listIsPrefixOf ['s', 'h', 'a', '2', '5', '6', '='] (stateHex st).data = false := by
  simp [stateHex, wordHex, listIsPrefixOf, beq_h_hexChar]

theorem removePrefixPy_stateHex (st : Sha256State) :
    removePrefixPy "sha256=" (stateHex st) = stateHex st := by
  simp [removePrefixPy, sha_tag_not_prefix_of_stateHex]

theorem removePrefixPy_of_append (x : String) :
    removePrefixPy "sha256=" ("sha256=" ++ x) = x := by
  have hdata : ("sha256=" ++ x).data = "sha256=".data ++ x.data := rfl
  simp only [removePrefixPy, hdata, listIsPrefixOf_self_append, if_pos]
  simp

theorem ne_stateHex_of_short {t : String} (st : Sha256State)
    (h : t.data.length ≠ 64) : t ≠ stateHex st := by
  intro he
  exact h (he ▸ length_data_stateHex st)

theorem compare_digest_refl {d : String} (h : isAsciiStr d = true) :
    compare_digest d d = .ok true := by
  simp [compare_digest, h]

theorem compare_digest_of_ne {a b : String} (ha : isAsciiStr a = true)
    (hb : isAsciiStr b = true) (hne : a ≠ b) : compare_digest a b = .ok false := by
  simp [compare_digest, ha, hb, hne]

theorem hmac_hex_isAscii (s p : String) :
    isAsciiStr (hmac_sha256_hexdigest s p) = true :=
  isAsciiStr_stateHex _

theorem hmac_hex_strip (s p : String) :
    removePrefixPy "sha256=" (hmac_sha256_hexdigest s p) = hmac_sha256_hexdigest s p :=
  removePrefixPy_stateHex _

theorem isAsciiStr_removePrefixPy {t : String} (pre : String)
    (h : isAsciiStr t = true) : isAsciiStr (removePrefixPy pre t) = true := by
  unfold removePrefixPy
  split
  · simp only [isAsciiStr] at *
    rw [List.all_eq_true] at h ⊢
    intro x hx
    exact h x (List.mem_of_mem_drop hx)
  · exact h

/-- With a truthy secret, `verify_signature` is the constant-time
comparison of the expected digest with the prefix-stripped token. -/
theorem verify_signature_some {sk : String} (hsk : sk ≠ "") (payload sig : String) :
    verify_signature (some sk) payload sig =
      compare_digest (hmac_sha256_hexdigest sk payload)
        (removePrefixPy "sha256=" sig) := by
  simp [verify_signature, pyTruthyOptStr, hsk]

theorem sha_tag_append_ne_empty (x : String) : ("sha256=" ++ x) ≠ "" := by
  intro h
  have hd := congrArg String.data h
  rw [show ("sha256=" ++ x).data = 's' :: 'h' :: 'a' :: '2' :: '5' :: '6' :: '=' :: x.data
    from rfl] at hd
  simp at hd

/-- C2 (amended; the verifier is `WebhookHandler.verify_signature`):
for every nonempty secret `S` and every payload `P`, the verifier
returns true on the lower-case hex HMAC-SHA-256 digest of `P` under
`S`, both bare and with the literal `sha256=` prefix; it returns false
on every ASCII token whose digest part (after the optional prefix
strip) differs from that digest — in particular on any token obtained
by changing one character of the digest within ASCII — and on the
digest computed under any secret that yields a different digest. -/
theorem claimC2_signature_correctness :
    ∀ (S P : String), S ≠ "" →
      verify_signature (some S) P (hmac_sha256_hexdigest S P) = .ok true ∧
      verify_signature (some S) P ("sha256=" ++ hmac_sha256_hexdigest S P) = .ok true ∧
      (∀ t : String, isAsciiStr t = true →
        removePrefixPy "sha256=" t ≠ hmac_sha256_hexdigest S P →
        verify_signature (some S) P t = .ok false) ∧
      (∀ S' : String, hmac_sha256_hexdigest S' P ≠ hmac_sha256_hexdigest S P →
        verify_signature (some S) P (hmac_sha256_hexdigest S' P) = .ok false) := by
  intro S P hS
  refine ⟨?_, ?_, ?_, ?_⟩
  · rw [verify_signature_some hS, hmac_hex_strip]
    exact compare_digest_refl (hmac_hex_isAscii S P)
  · rw [verify_signature_some hS, removePrefixPy_of_append]
    exact compare_digest_refl (hmac_hex_isAscii S P)
  · intro t ht hne
    rw [verify_signature_some hS]
    exact compare_digest_of_ne (hmac_hex_isAscii S P)
      (isAsciiStr_removePrefixPy "sha256=" ht) (Ne.symm hne)
  · intro S' hne
    rw [verify_signature_some hS, hmac_hex_strip]
    exact compare_digest_of_ne (hmac_hex_isAscii S P) (hmac_hex_isAscii S' P)
      (Ne.symm hne)

/-- Witness for C2 at the secret `secret` and payload `payload`,
with the bare digest, the prefixed digest, the short token `00`
(differing from the 64-character digest) and the digest under the
different secret `other`. -/
theorem claimC2_signature_correctness_witness :
    "secret" ≠ "" ∧
    verify_signature (some "secret") "payload"
      (hmac_sha256_hexdigest "secret" "payload") = .ok true ∧
    verify_signature (some "secret") "payload"
      ("sha256=" ++ hmac_sha256_hexdigest "secret" "payload") = .ok true ∧
    verify_signature (some "secret") "payload" "00" = .ok false ∧
    verify_signature (some "secret") "payload"
      (hmac_sha256_hexdigest "other" "payload") = .ok false := by
  have h := claimC2_signature_correctness "secret" "payload" (by decide)
  refine ⟨by decide, h.1, h.2.1, ?_, ?_⟩
  · refine h.2.2.1 "00" (by decide) ?_
    rw [show removePrefixPy "sha256=" "00" = "00" from rfl]
    exact ne_stateHex_of_short _ (by decide)
  · exact h.2.2.2 "other" (by decide)

/-- C2, the claim as stated, is false at the empty secret: the claim
quantifies over every secret string, but `verify_signature` raises
`ValueError` when the configured secret is falsy instead of returning
true on the matching digest. -/
theorem claimC2_counterexample :
    verify_signature (some "") "payload" (hmac_sha256_hexdigest "" "payload") =
      .error (.valueError "Secret key is required for signature verification") := rfl

/-- C8 (amended): with a truthy secret, the verifier does not throw on
any ASCII signature token: it returns exactly the boolean comparison of
the expected digest with the prefix-stripped token, so every malformed
ASCII token simply fails to match and yields false.  (A token with a
non-ASCII character, by contrast, raises `TypeError` from
`hmac.compare_digest` — see the counterexample.) -/
theorem claimC8_no_throw_on_ascii_tokens :
    ∀ (S P t : String), S ≠ "" → isAsciiStr t = true →
      verify_signature (some S) P t =
        .ok (hmac_sha256_hexdigest S P == removePrefixPy "sha256=" t) := by
  intro S P t hS ht
  rw [verify_signature_some hS]
  simp [compare_digest, hmac_hex_isAscii, isAsciiStr_removePrefixPy "sha256=" ht]

/-- Witness for C8 at the malformed ASCII token `invalid_signature`:
the verifier returns false rather than throwing. -/
theorem claimC8_no_throw_on_ascii_tokens_witness :
    "k" ≠ "" ∧ isAsciiStr "invalid_signature" = true ∧
    verify_signature (some "k") "m" "invalid_signature" =
      .ok (hmac_sha256_hexdigest "k" "m" == removePrefixPy "sha256=" "invalid_signature") :=
  ⟨by decide, by decide,
    claimC8_no_throw_on_ascii_tokens "k" "m" "invalid_signature" (by decide) (by decide)⟩

/-- C8, the claim as stated, is false on a non-ASCII malformed token:
`hmac.compare_digest` refuses to compare strings with non-ASCII
characters, so `verify_signature` raises `TypeError` instead of
returning false. -/
theorem claimC8_counterexample :
    verify_signature (some "secret") "payload" "é" =
      .error (.typeError "comparing strings with non-ASCII characters is not supported") := by
  rw [verify_signature_some (show "secret" ≠ "" by decide),
    show removePrefixPy "sha256=" "é" = "é" from rfl]
  have hna : isAsciiStr "é" = false := by decide
  simp [compare_digest, hmac_hex_isAscii, hna]

/-- C10: `process_webhook` verifies only when both a signature argument
and a secret key are truthy.  With a `None` or empty signature — even
with a secret key configured — no verification occurs and the run is
exactly the parse-and-dispatch tail, which is also exactly what a run
with a valid signature performs: the payload is parsed and the
registered handlers are invoked as if verification had succeeded. -/
theorem claimC10_process_webhook_skips_verification :
    ∀ (jsonLoads : String → Except String Json) (secret_key : Option String)
      (handlers : HandlerRegistry) (payload : String) (signature : Option String),
      (pyTruthyOptStr signature = false →
        process_webhook jsonLoads secret_key handlers payload signature =
          parse_and_handle jsonLoads handlers payload) ∧
      (∀ sk : String, secret_key = some sk → sk ≠ "" →
        process_webhook jsonLoads secret_key handlers payload
            (some ("sha256=" ++ hmac_sha256_hexdigest sk payload)) =
          parse_and_handle jsonLoads handlers payload) := by
  intro jsonLoads secret_key handlers payload signature
  constructor
  · intro hsig
    simp [process_webhook, hsig]
  · intro sk hsk hne
    subst hsk
    have htr : pyTruthyOptStr (some ("sha256=" ++ hmac_sha256_hexdigest sk payload)) =
        true := by
      simp [pyTruthyOptStr, sha_tag_append_ne_empty]
    have hver : verify_signature (some sk) payload
        ("sha256=" ++ hmac_sha256_hexdigest sk payload) = .ok true := by
      rw [verify_signature_some hne, removePrefixPy_of_append]
      exact compare_digest_refl (hmac_hex_isAscii sk payload)
    simp [process_webhook, htr, pyTruthyOptStr, hne, hver]

/-- Witness for C10 with a stub JSON parser, a configured secret and
one registered handler: a `None` signature and an empty-string
signature both skip verification, and the valid-signature run agrees. -/
theorem claimC10_process_webhook_skips_verification_witness :
    pyTruthyOptStr none = false ∧ pyTruthyOptStr (some "") = false ∧
    process_webhook (fun _ => .error "Expecting value") (some "k")
        [(.memberCreated, 0)] "body" none =
      parse_and_handle (fun _ => .error "Expecting value") [(.memberCreated, 0)] "body" ∧
    process_webhook (fun _ => .error "Expecting value") (some "k")
        [(.memberCreated, 0)] "body" (some "") =
      parse_and_handle (fun _ => .error "Expecting value") [(.memberCreated, 0)] "body" ∧
    process_webhook (fun _ => .error "Expecting value") (some "k")
        [(.memberCreated, 0)] "body"
        (some ("sha256=" ++ hmac_sha256_hexdigest "k" "body")) =
      parse_and_handle (fun _ => .error "Expecting value") [(.memberCreated, 0)] "body" :=
  ⟨by decide, by decide,
    (claimC10_process_webhook_skips_verification (fun _ => .error "Expecting value")
      (some "k") [(.memberCreated, 0)] "body" none).1 (by decide),
    (claimC10_process_webhook_skips_verification (fun _ => .error "Expecting value")
      (some "k") [(.memberCreated, 0)] "body" (some "")).1 (by decide),
    (claimC10_process_webhook_skips_verification (fun _ => .error "Expecting value")
      (some "k") [(.memberCreated, 0)] "body" none).2 "k" rfl (by decide)⟩

/-- C1 (amended): the dispatcher `parse_webhook_payload` accepts
exactly its twelve discriminator strings, matched exactly and
case-sensitively: an input whose `event` value is a string outside the
twelve fails with `ValueError('Unsupported event type: <string>')`
carrying the offending string verbatim, and each of the twelve, given a
minimally valid payload, produces the event variant associated with
that discriminator. -/
theorem claimC1_dispatcher_accepts_exactly_twelve :
    (∀ (payload : PyDict) (s : String),
      getField payload "event" = some (.str s) → s ∉ dispatcherDiscriminators →
      parse_webhook_payload payload =
        .error (.valueError ("Unsupported event type: " ++ s))) ∧
    (∀ D ∈ dispatcherDiscriminators, ∃ ev,
      parse_webhook_payload (minimalPayload D) = .ok ev ∧
      Legacy.WebhookEvent.variantTag ev = D) := by
  constructor
  · intro payload s hs hmem
    simp only [dispatcherDiscriminators, List.mem_cons, List.not_mem_nil, or_false,
      not_or] at hmem
    obtain ⟨h1, h2, h3, h4, h5, h6, h7, h8, h9, h10, h11, h12⟩ := hmem
    simp [parse_webhook_payload, hs, h1, h2, h3, h4, h5, h6, h7, h8, h9, h10,
      h11, h12]
  · intro D hD
    simp only [dispatcherDiscriminators, List.mem_cons, List.not_mem_nil,
      or_false] at hD
    rcases hD with h | h | h | h | h | h | h | h | h | h | h | h <;> subst h <;>
      exact ⟨_, rfl, rfl⟩

/-- Witness for C1 at the unknown string `member.created` (rejected
verbatim) and the known discriminator `member_signup` (accepted). -/
theorem claimC1_dispatcher_accepts_exactly_twelve_witness :
    getField [("event", Json.str "member.created")] "event" =
      some (.str "member.created") ∧
    "member.created" ∉ dispatcherDiscriminators ∧
    parse_webhook_payload [("event", .str "member.created")] =
      .error (.valueError "Unsupported event type: member.created") ∧
    "member_signup" ∈ dispatcherDiscriminators ∧
    (∃ ev, parse_webhook_payload (minimalPayload "member_signup") = .ok ev ∧
      Legacy.WebhookEvent.variantTag ev = "member_signup") :=
  ⟨rfl, by decide,
    (claimC1_dispatcher_accepts_exactly_twelve).1 [("event", .str "member.created")]
      "member.created" rfl (by decide),
    by decide,
    (claimC1_dispatcher_accepts_exactly_twelve).2 "member_signup" (by decide)⟩

/-- C1, the claim as stated, is false on the code both ways: the
specification's eighteen-string set contains `member.deleted`, which
the dispatcher rejects, and omits `subscription.updated`, which the
dispatcher accepts with a valid payload. -/
theorem claimC1_counterexample :
    "member.deleted" ∈ specDiscriminators ∧
    parse_webhook_payload [("event", .str "member.deleted")] =
      .error (.valueError "Unsupported event type: member.deleted") ∧
    "subscription.updated" ∉ specDiscriminators ∧
    exceptOk (parse_webhook_payload (minimalPayload "subscription.updated")) = true := by
  refine ⟨by decide, rfl, by decide, rfl⟩

/-- C3: round-trip discriminator integrity for the dispatcher
`parse_webhook_payload`: for every discriminator `D` it supports,
dispatching a minimally valid payload whose `event` value is `D`
succeeds with an event value whose `event` field equals `D` and whose
variant (constructor of the tagged union) is exactly the variant
associated with `D`, so a caller can branch exhaustively on the
variant without re-inspecting the `event` string. -/
theorem claimC3_roundtrip_discriminator_integrity :
    ∀ D ∈ dispatcherDiscriminators, ∃ ev,
      parse_webhook_payload (minimalPayload D) = .ok ev ∧
      Legacy.WebhookEvent.eventName ev = D ∧
      Legacy.WebhookEvent.variantTag ev = D := by
  intro D hD
  simp only [dispatcherDiscriminators, List.mem_cons, List.not_mem_nil,
    or_false] at hD
  rcases hD with h | h | h | h | h | h | h | h | h | h | h | h <;> subst h <;>
    exact ⟨_, rfl, rfl, rfl⟩

/-- Witness for C3 at the discriminator `subscription_plan.created`. -/
theorem claimC3_roundtrip_discriminator_integrity_witness :
    "subscription_plan.created" ∈ dispatcherDiscriminators ∧
    (∃ ev, parse_webhook_payload (minimalPayload "subscription_plan.created") =
        .ok ev ∧
      Legacy.WebhookEvent.eventName ev = "subscription_plan.created" ∧
      Legacy.WebhookEvent.variantTag ev = "subscription_plan.created") :=
  ⟨by decide, claimC3_roundtrip_discriminator_integrity "subscription_plan.created"
    (by decide)⟩

/-- C7: an input mapping without an `event` key dispatches to the
unsupported-event failure whose message renders the missing value the
way Python formats `None`, rather than to a key-lookup error:
`payload.get('event')` yields `None`, which matches no discriminator. -/
theorem claimC7_missing_event_key_unsupported :
    ∀ payload : PyDict, getField payload "event" = none →
      parse_webhook_payload payload =
        .error (.valueError "Unsupported event type: None") := by
  intro payload h
  simp [parse_webhook_payload, h, pyStrOpt]

/-- Witness for C7 at the empty mapping. -/
theorem claimC7_missing_event_key_unsupported_witness :
    getField ([] : PyDict) "event" = none ∧
    parse_webhook_payload [] = .error (.valueError "Unsupported event type: None") :=
  ⟨rfl, claimC7_missing_event_key_unsupported [] rfl⟩

/-! ## Entity-model claims -/

theorem ok_bind {α β : Type} (a : α) (f : α → Except PyErr β) :
    (Except.ok a >>= f) = f a := rfl

theorem error_bind {α β : Type} (e : PyErr) (f : α → Except PyErr β) :
    ((Except.error e : Except PyErr α) >>= f) = .error e := rfl

theorem exceptOk_map (f : α → β) (x : Except PyErr α) :
    exceptOk (x.map f) = exceptOk x := by
  cases x <;> rfl

/-- C9: a minimal member object carrying only `id`, `email` and
`created_at` decodes, and the absent optional fields take their
documented defaults — `unrestricted_access` false, `address` and
`first_name` (and the other optional fields) `None`. -/
theorem claimC9_minimal_member_defaults :
    ∀ (i : Int) (e : String) (c : Int),
      Models.decodeMember
          (.obj [("id", .num i), ("email", .str e), ("created_at", .num c)]) =
        .ok { id := i, email := e, first_name := none, last_name := none,
              full_name := none, username := none, phone_number := none,
              created_at := c, signup_method := none, stripe_customer_id := none,
              discord_user_id := none, unrestricted_access := false,
              address := none, credit_card := none, tracking_params := none,
              custom_field := none, extras := [] } := by
  intro i e c
  rfl

/-- C5 (amended, about the package model `webhooks/models.py`): a
`SubscriptionPlan` object lacking `price` and `renewal_period` decodes
with those fields `None` — concretely the claim's sample object — while
an object missing any of `id`, `name` or `slug` fails to decode.  (The
legacy `webhook_models.SubscriptionPlan` instead requires `price` and
`renewal_period` — see the counterexample.) -/
theorem claimC5_plan_optional_and_required_fields :
    (Models.decodeSubscriptionPlan samplePlanJson =
      .ok { id := 0, name := "Sample plan", slug := "0-sample-plan", price := none,
            price_cents := none, renewal_period := none, interval_unit := none,
            interval_count := 1, for_sale := true, type := some "standard_plan",
            extras := [] }) ∧
    (∀ kvs : PyDict, getField kvs "id" = none →
      exceptOk (Models.decodeSubscriptionPlan (.obj kvs)) = false) ∧
    (∀ kvs : PyDict, getField kvs "name" = none →
      exceptOk (Models.decodeSubscriptionPlan (.obj kvs)) = false) ∧
    (∀ kvs : PyDict, getField kvs "slug" = none →
      exceptOk (Models.decodeSubscriptionPlan (.obj kvs)) = false) := by
  refine ⟨rfl, ?_, ?_, ?_⟩
  · intro kvs h
    rw [show Models.decodeSubscriptionPlan (.obj kvs) =
      (Models.subscriptionPlanCore kvs).map _ from rfl, exceptOk_map]
    simp [Models.subscriptionPlanCore, reqIntField, h, error_bind, exceptOk]
  · intro kvs h
    rw [show Models.decodeSubscriptionPlan (.obj kvs) =
      (Models.subscriptionPlanCore kvs).map _ from rfl, exceptOk_map]
    cases hid : reqIntField kvs "id" with
    | error e =>
      simp [Models.subscriptionPlanCore, hid, error_bind, exceptOk]
    | ok v =>
      simp only [Models.subscriptionPlanCore, hid, ok_bind]
      simp [reqStrField, h, error_bind, exceptOk]
  · intro kvs h
    rw [show Models.decodeSubscriptionPlan (.obj kvs) =
      (Models.subscriptionPlanCore kvs).map _ from rfl, exceptOk_map]
    cases hid : reqIntField kvs "id" with
    | error e =>
      simp [Models.subscriptionPlanCore, hid, error_bind, exceptOk]
    | ok v =>
      cases hname : reqStrField kvs "name" with
      | error e =>
        simp [Models.subscriptionPlanCore, hid, hname, ok_bind, error_bind,
          exceptOk]
      | ok w =>
        simp only [Models.subscriptionPlanCore, hid, hname, ok_bind]
        simp [reqStrField, h, error_bind, exceptOk]

/-- Witness for C5: the sample object itself lacks `id`-free variants;
the universal parts are instanced at the empty object. -/
theorem claimC5_plan_optional_and_required_fields_witness :
    getField ([] : PyDict) "id" = none ∧
    exceptOk (Models.decodeSubscriptionPlan (.obj [])) = false ∧
    getField ([] : PyDict) "name" = none ∧
    getField ([] : PyDict) "slug" = none :=
  ⟨rfl, claimC5_plan_optional_and_required_fields.2.1 [] rfl, rfl, rfl⟩

/-- C5, the claim as stated, is false of the legacy
`webhook_models.SubscriptionPlan`, one of the two classes of that name
in the source: it requires `price`, so the claim's concrete object is
rejected rather than decoded with `price = None`. -/
theorem claimC5_counterexample :
    Legacy.decodeSubscriptionPlan samplePlanJson =
      .error (.valueError "price: field required") := rfl

/-- C6 (amended, about the package model `webhooks/models.py`): an
`Order` decodes whether `created_at` is an integer unix timestamp or an
ISO datetime string, and the value is preserved exactly as given (an
integer stays an integer, a string stays a string).  (The legacy
`webhook_models.Order` types `created_at` as `Optional[int]` and
rejects the string form — see the counterexample.) -/
theorem claimC6_order_created_at_int_or_str :
    ∀ (u : String) (t n : Int) (s : String),
      Models.decodeOrder (.obj [("uuid", .str u), ("total", .num t),
          ("status", .str "completed"), ("created_at", .num n)]) =
        .ok { uuid := u, number := none, total := t, status := .completed,
              receipt := none, created_at := some (.inl n), member := none,
              products := [], subscriptions := [], extras := [] } ∧
      Models.decodeOrder (.obj [("uuid", .str u), ("total", .num t),
          ("status", .str "completed"), ("created_at", .str s)]) =
        .ok { uuid := u, number := none, total := t, status := .completed,
              receipt := none, created_at := some (.inr s), member := none,
              products := [], subscriptions := [], extras := [] } := by
  intro u t n s
  exact ⟨rfl, rfl⟩

/-- C6, the claim as stated, is false of the legacy
`webhook_models.Order`, one of the two classes of that name in the
source: the integer timestamp decodes but the ISO datetime string is
rejected. -/
theorem claimC6_counterexample :
    exceptOk (Legacy.decodeOrder legacyOrderIntCreatedJson) = true ∧
    Legacy.decodeOrder legacyOrderStrCreatedJson =
      .error (.valueError "created_at: a valid integer is required") :=
  ⟨rfl, rfl⟩

/-! ## C4: extras preservation across the package entity models

Each core validator reads the input dict only at its declared field
names, so a fresh undeclared entry changes no typed field and lands in
the extras. -/

theorem addressCore_cons {k : String} (v : Json) (kvs : PyDict)
    (hk : k ∉ Models.addressKeys) :
    Models.addressCore ((k, v) :: kvs) = Models.addressCore kvs := by
  simp only [Models.addressKeys, List.mem_cons, List.not_mem_nil, or_false,
    not_or] at hk
  obtain ⟨h1, h2, h3, h4, h5⟩ := hk
  simp only [Models.addressCore, optStrField_cons v kvs h1,
    optStrField_cons v kvs h2, optStrField_cons v kvs h3,
    optStrField_cons v kvs h4, optStrField_cons v kvs h5]

theorem creditCardCore_cons {k : String} (v : Json) (kvs : PyDict)
    (hk : k ∉ Models.creditCardKeys) :
    Models.creditCardCore ((k, v) :: kvs) = Models.creditCardCore kvs := by
  simp only [Models.creditCardKeys, List.mem_cons, List.not_mem_nil, or_false,
    not_or] at hk
  obtain ⟨h1, h2, h3, h4⟩ := hk
  simp only [Models.creditCardCore, optIntField_cons v kvs h1,
    optIntField_cons v kvs h2, optStrField_cons v kvs h3,
    optStrField_cons v kvs h4]

theorem trackingParamsCore_cons {k : String} (v : Json) (kvs : PyDict)
    (hk : k ∉ Models.trackingParamsKeys) :
    Models.trackingParamsCore ((k, v) :: kvs) = Models.trackingParamsCore kvs := by
  simp only [Models.trackingParamsKeys, List.mem_cons, List.not_mem_nil, or_false,
    not_or] at hk
  obtain ⟨h1, h2, h3, h4, h5⟩ := hk
  simp only [Models.trackingParamsCore, optStrField_cons v kvs h1,
    optStrField_cons v kvs h2, optStrField_cons v kvs h3,
    optStrField_cons v kvs h4, optStrField_cons v kvs h5]

theorem subscriptionPlanCore_cons {k : String} (v : Json) (kvs : PyDict)
    (hk : k ∉ Models.subscriptionPlanKeys) :
    Models.subscriptionPlanCore ((k, v) :: kvs) = Models.subscriptionPlanCore kvs := by
  simp only [Models.subscriptionPlanKeys, List.mem_cons, List.not_mem_nil, or_false,
    not_or] at hk
  obtain ⟨h1, h2, h3, h4, h5, h6, h7, h8, h9, h10⟩ := hk
  simp only [Models.subscriptionPlanCore, reqIntField_cons v kvs h1,
    reqStrField_cons v kvs h2, reqStrField_cons v kvs h3,
    optIntField_cons v kvs h4, optIntField_cons v kvs h5,
    optEnumField_cons RenewalPeriod.fromString v kvs h6,
    optEnumField_cons IntervalUnit.fromString v kvs h7,
    intFieldD_cons v kvs 1 h8, boolFieldD_cons v kvs true h9,
    optStrField_cons v kvs h10]

theorem productCore_cons {k : String} (v : Json) (kvs : PyDict)
    (hk : k ∉ Models.productKeys) :
    Models.productCore ((k, v) :: kvs) = Models.productCore kvs := by
  simp only [Models.productKeys, List.mem_cons, List.not_mem_nil, or_false,
    not_or] at hk
  obtain ⟨h1, h2, h3, h4, h5⟩ := hk
  simp only [Models.productCore, reqIntField_cons v kvs h1,
    reqStrField_cons v kvs h2, reqIntField_cons v kvs h3,
    reqStrField_cons v kvs h4, boolFieldD_cons v kvs true h5]

theorem memberSubscriptionCore_cons {k : String} (v : Json) (kvs : PyDict)
    (hk : k ∉ Models.memberSubscriptionKeys) :
    Models.memberSubscriptionCore ((k, v) :: kvs) =
      Models.memberSubscriptionCore kvs := by
  simp only [Models.memberSubscriptionKeys, List.mem_cons, List.not_mem_nil,
    or_false, not_or] at hk
  obtain ⟨h1, h2, h3, h4, h5, h6, h7, h8, h9⟩ := hk
  simp only [Models.memberSubscriptionCore, reqBoolField_cons v kvs h1,
    reqIntField_cons v kvs h2, reqBoolField_cons v kvs h3,
    optIntField_cons v kvs h4, reqIntField_cons v kvs h5,
    boolFieldD_cons v kvs false h6,
    reqNestedField_cons Models.decodeSubscriptionPlan v kvs h7,
    optIntField_cons v kvs h8, optIntField_cons v kvs h9]

theorem memberCore_cons {k : String} (v : Json) (kvs : PyDict)
    (hk : k ∉ Models.memberKeys) :
    Models.memberCore ((k, v) :: kvs) = Models.memberCore kvs := by
  simp only [Models.memberKeys, List.mem_cons, List.not_mem_nil, or_false,
    not_or] at hk
  obtain ⟨h1, h2, h3, h4, h5, h6, h7, h8, h9, h10, h11, h12, h13, h14, h15, h16⟩ := hk
  simp only [Models.memberCore, reqIntField_cons v kvs h1,
    reqStrField_cons v kvs h2, optStrField_cons v kvs h3,
    optStrField_cons v kvs h4, optStrField_cons v kvs h5,
    optStrField_cons v kvs h6, optStrField_cons v kvs h7,
    reqIntField_cons v kvs h8,
    optEnumField_cons SignupMethod.fromString v kvs h9,
    optStrField_cons v kvs h10, optStrField_cons v kvs h11,
    boolFieldD_cons v kvs false h12,
    optNestedField_cons Models.decodeAddress v kvs h13,
    optNestedField_cons Models.decodeCreditCard v kvs h14,
    optNestedField_cons Models.decodeTrackingParams v kvs h15,
    optAnyField_cons v kvs h16]

theorem subscriptionCore_cons {k : String} (v : Json) (kvs : PyDict)
    (hk : k ∉ Models.subscriptionKeys) :
    Models.subscriptionCore ((k, v) :: kvs) = Models.subscriptionCore kvs := by
  simp only [Models.subscriptionKeys, List.mem_cons, List.not_mem_nil, or_false,
    not_or] at hk
  obtain ⟨h1, h2, h3, h4, h5, h6, h7, h8, h9⟩ := hk
  simp only [Models.subscriptionCore, reqIntField_cons v kvs h1,
    reqBoolField_cons v kvs h2, reqBoolField_cons v kvs h3,
    reqStrField_cons v kvs h4, reqStrField_cons v kvs h5,
    reqNestedField_cons Models.decodeMember v kvs h6,
    reqNestedField_cons Models.decodeSubscriptionPlan v kvs h7,
    optStrField_cons v kvs h8, optStrField_cons v kvs h9]

theorem deletedMemberCore_cons {k : String} (v : Json) (kvs : PyDict)
    (hk : k ∉ Models.deletedMemberKeys) :
    Models.deletedMemberCore ((k, v) :: kvs) = Models.deletedMemberCore kvs := by
  simp only [Models.deletedMemberKeys, List.mem_cons, List.not_mem_nil, or_false,
    not_or] at hk
  obtain ⟨h1, h2⟩ := hk
  simp only [Models.deletedMemberCore, reqIntField_cons v kvs h1,
    boolFieldD_cons v kvs true h2]

theorem subscriptionChangesCore_cons {k : String} (v : Json) (kvs : PyDict)
    (hk : k ∉ Models.subscriptionChangesKeys) :
    Models.subscriptionChangesCore ((k, v) :: kvs) =
      Models.subscriptionChangesCore kvs := by
  simp only [Models.subscriptionChangesKeys, List.mem_cons, List.not_mem_nil,
    or_false, not_or] at hk
  obtain ⟨h1, h2, h3, h4, h5⟩ := hk
  simp only [Models.subscriptionChangesCore, optListField_cons decJsonInt v kvs h1,
    optListField_cons decJsonStr v kvs h2, optListField_cons decJsonBool v kvs h3,
    optListField_cons decJsonBool v kvs h4, optListField_cons decJsonInt v kvs h5]

theorem memberChangesCore_cons {k : String} (v : Json) (kvs : PyDict)
    (hk : k ∉ Models.memberChangesKeys) :
    Models.memberChangesCore ((k, v) :: kvs) = Models.memberChangesCore kvs := by
  simp only [Models.memberChangesKeys, List.mem_cons, List.not_mem_nil, or_false,
    not_or] at hk
  obtain ⟨h1, h2, h3, h4, h5, h6, h7, h8, h9, h10⟩ := hk
  simp only [Models.memberChangesCore, optListField_cons decJsonStr v kvs h1,
    optListField_cons decJsonStr v kvs h2, optListField_cons decJsonStr v kvs h3,
    optListField_cons decJsonStr v kvs h4, optListField_cons decJsonStr v kvs h5,
    optListField_cons decJsonStr v kvs h6, optListField_cons decJsonStr v kvs h7,
    optListField_cons decJsonStr v kvs h8, optListField_cons decJsonBool v kvs h9,
    optListField_cons decJsonAny v kvs h10]

theorem orderCore_cons {k : String} (v : Json) (kvs : PyDict)
    (hk : k ∉ Models.orderKeys) :
    Models.orderCore ((k, v) :: kvs) = Models.orderCore kvs := by
  simp only [Models.orderKeys, List.mem_cons, List.not_mem_nil, or_false,
    not_or] at hk
  obtain ⟨h1, h2, h3, h4, h5, h6, h7, h8, h9⟩ := hk
  simp only [Models.orderCore, reqStrField_cons v kvs h1,
    optStrField_cons v kvs h2, reqIntField_cons v kvs h3,
    reqEnumField_cons OrderStatus.fromString v kvs h4,
    optStrField_cons v kvs h5, optIntOrStrField_cons v kvs h6,
    optNestedField_cons Models.decodeMember v kvs h7,
    listFieldD_cons Models.decodeProduct v kvs h8,
    listFieldD_cons Models.decodeMemberSubscription v kvs h9]

theorem decodeAddress_extra_key {k : String} {v : Json} {kvs : PyDict}
    {m : Models.Address} (hk : k ∉ Models.addressKeys)
    (hm : Models.decodeAddress (.obj kvs) = .ok m) :
    Models.decodeAddress (.obj ((k, v) :: kvs)) =
      .ok { m with extras := (k, v) :: m.extras } :=
  decodeObj_extra_key Models.addressCore (fun a e => { a with extras := e })
    Models.addressKeys "Address" Models.Address.extras
    (fun _ v kvs hk => addressCore_cons v kvs hk)
    (fun _ _ _ => rfl) (fun _ _ => rfl) hk hm

theorem decodeCreditCard_extra_key {k : String} {v : Json} {kvs : PyDict}
    {m : Models.CreditCard} (hk : k ∉ Models.creditCardKeys)
    (hm : Models.decodeCreditCard (.obj kvs) = .ok m) :
    Models.decodeCreditCard (.obj ((k, v) :: kvs)) =
      .ok { m with extras := (k, v) :: m.extras } :=
  decodeObj_extra_key Models.creditCardCore (fun a e => { a with extras := e })
    Models.creditCardKeys "CreditCard" Models.CreditCard.extras
    (fun _ v kvs hk => creditCardCore_cons v kvs hk)
    (fun _ _ _ => rfl) (fun _ _ => rfl) hk hm

theorem decodeTrackingParams_extra_key {k : String} {v : Json} {kvs : PyDict}
    {m : Models.TrackingParams} (hk : k ∉ Models.trackingParamsKeys)
    (hm : Models.decodeTrackingParams (.obj kvs) = .ok m) :
    Models.decodeTrackingParams (.obj ((k, v) :: kvs)) =
      .ok { m with extras := (k, v) :: m.extras } :=
  decodeObj_extra_key Models.trackingParamsCore (fun a e => { a with extras := e })
    Models.trackingParamsKeys "TrackingParams" Models.TrackingParams.extras
    (fun _ v kvs hk => trackingParamsCore_cons v kvs hk)
    (fun _ _ _ => rfl) (fun _ _ => rfl) hk hm

theorem decodeSubscriptionPlan_extra_key {k : String} {v : Json} {kvs : PyDict}
    {m : Models.SubscriptionPlan} (hk : k ∉ Models.subscriptionPlanKeys)
    (hm : Models.decodeSubscriptionPlan (.obj kvs) = .ok m) :
    Models.decodeSubscriptionPlan (.obj ((k, v) :: kvs)) =
      .ok { m with extras := (k, v) :: m.extras } :=
  decodeObj_extra_key Models.subscriptionPlanCore (fun a e => { a with extras := e })
    Models.subscriptionPlanKeys "SubscriptionPlan" Models.SubscriptionPlan.extras
    (fun _ v kvs hk => subscriptionPlanCore_cons v kvs hk)
    (fun _ _ _ => rfl) (fun _ _ => rfl) hk hm

theorem decodeProduct_extra_key {k : String} {v : Json} {kvs : PyDict}
    {m : Models.Product} (hk : k ∉ Models.productKeys)
    (hm : Models.decodeProduct (.obj kvs) = .ok m) :
    Models.decodeProduct (.obj ((k, v) :: kvs)) =
      .ok { m with extras := (k, v) :: m.extras } :=
  decodeObj_extra_key Models.productCore (fun a e => { a with extras := e })
    Models.productKeys "Product" Models.Product.extras
    (fun _ v kvs hk => productCore_cons v kvs hk)
    (fun _ _ _ => rfl) (fun _ _ => rfl) hk hm

theorem decodeMemberSubscription_extra_key {k : String} {v : Json} {kvs : PyDict}
    {m : Models.MemberSubscription} (hk : k ∉ Models.memberSubscriptionKeys)
    (hm : Models.decodeMemberSubscription (.obj kvs) = .ok m) :
    Models.decodeMemberSubscription (.obj ((k, v) :: kvs)) =
      .ok { m with extras := (k, v) :: m.extras } :=
  decodeObj_extra_key Models.memberSubscriptionCore
    (fun a e => { a with extras := e }) Models.memberSubscriptionKeys
    "MemberSubscription" Models.MemberSubscription.extras
    (fun _ v kvs hk => memberSubscriptionCore_cons v kvs hk)
    (fun _ _ _ => rfl) (fun _ _ => rfl) hk hm

theorem decodeMember_extra_key {k : String} {v : Json} {kvs : PyDict}
    {m : Models.Member} (hk : k ∉ Models.memberKeys)
    (hm : Models.decodeMember (.obj kvs) = .ok m) :
    Models.decodeMember (.obj ((k, v) :: kvs)) =
      .ok { m with extras := (k, v) :: m.extras } :=
  decodeObj_extra_key Models.memberCore (fun a e => { a with extras := e })
    Models.memberKeys "Member" Models.Member.extras
    (fun _ v kvs hk => memberCore_cons v kvs hk)
    (fun _ _ _ => rfl) (fun _ _ => rfl) hk hm

theorem decodeSubscription_extra_key {k : String} {v : Json} {kvs : PyDict}
    {m : Models.Subscription} (hk : k ∉ Models.subscriptionKeys)
    (hm : Models.decodeSubscription (.obj kvs) = .ok m) :
    Models.decodeSubscription (.obj ((k, v) :: kvs)) =
      .ok { m with extras := (k, v) :: m.extras } :=
  decodeObj_extra_key Models.subscriptionCore (fun a e => { a with extras := e })
    Models.subscriptionKeys "Subscription" Models.Subscription.extras
    (fun _ v kvs hk => subscriptionCore_cons v kvs hk)
    (fun _ _ _ => rfl) (fun _ _ => rfl) hk hm

theorem decodeDeletedMember_extra_key {k : String} {v : Json} {kvs : PyDict}
    {m : Models.DeletedMember} (hk : k ∉ Models.deletedMemberKeys)
    (hm : Models.decodeDeletedMember (.obj kvs) = .ok m) :
    Models.decodeDeletedMember (.obj ((k, v) :: kvs)) =
      .ok { m with extras := (k, v) :: m.extras } :=
  decodeObj_extra_key Models.deletedMemberCore (fun a e => { a with extras := e })
    Models.deletedMemberKeys "DeletedMember" Models.DeletedMember.extras
    (fun _ v kvs hk => deletedMemberCore_cons v kvs hk)
    (fun _ _ _ => rfl) (fun _ _ => rfl) hk hm

theorem decodeSubscriptionChanges_extra_key {k : String} {v : Json} {kvs : PyDict}
    {m : Models.SubscriptionChanges} (hk : k ∉ Models.subscriptionChangesKeys)
    (hm : Models.decodeSubscriptionChanges (.obj kvs) = .ok m) :
    Models.decodeSubscriptionChanges (.obj ((k, v) :: kvs)) =
      .ok { m with extras := (k, v) :: m.extras } :=
  decodeObj_extra_key Models.subscriptionChangesCore
    (fun a e => { a with extras := e }) Models.subscriptionChangesKeys
    "SubscriptionChanges" Models.SubscriptionChanges.extras
    (fun _ v kvs hk => subscriptionChangesCore_cons v kvs hk)
    (fun _ _ _ => rfl) (fun _ _ => rfl) hk hm

theorem decodeMemberChanges_extra_key {k : String} {v : Json} {kvs : PyDict}
    {m : Models.MemberChanges} (hk : k ∉ Models.memberChangesKeys)
    (hm : Models.decodeMemberChanges (.obj kvs) = .ok m) :
    Models.decodeMemberChanges (.obj ((k, v) :: kvs)) =
      .ok { m with extras := (k, v) :: m.extras } :=
  decodeObj_extra_key Models.memberChangesCore (fun a e => { a with extras := e })
    Models.memberChangesKeys "MemberChanges" Models.MemberChanges.extras
    (fun _ v kvs hk => memberChangesCore_cons v kvs hk)
    (fun _ _ _ => rfl) (fun _ _ => rfl) hk hm

theorem decodeOrder_extra_key {k : String} {v : Json} {kvs : PyDict}
    {m : Models.Order} (hk : k ∉ Models.orderKeys)
    (hm : Models.decodeOrder (.obj kvs) = .ok m) :
    Models.decodeOrder (.obj ((k, v) :: kvs)) =
      .ok { m with extras := (k, v) :: m.extras } :=
  decodeObj_extra_key Models.orderCore (fun a e => { a with extras := e })
    Models.orderKeys "Order" Models.Order.extras
    (fun _ v kvs hk => orderCore_cons v kvs hk)
    (fun _ _ _ => rfl) (fun _ _ => rfl) hk hm

/-- C4 (amended, about the package models of `webhooks/models.py`): for
every entity type deriving `WebhookBaseModel` — Member,
SubscriptionPlan, Order, Address, CreditCard, TrackingParams, Product,
MemberSubscription, Subscription, DeletedMember, SubscriptionChanges,
MemberChanges — adding an input entry under an undeclared key to any
successfully decoding object leaves decoding successful, leaves every
declared field as it was, and preserves the new key with its original
value in the entity's retrievable extras.  (The legacy
`webhook_models.py` entities, which derive plain `BaseModel`, instead
silently drop unknown keys — see the counterexample.) -/
theorem claimC4_unknown_fields_preserved :
    (∀ (k : String) (v : Json) (kvs : PyDict) (m : Models.Member),
      k ∉ Models.memberKeys → Models.decodeMember (.obj kvs) = .ok m →
      Models.decodeMember (.obj ((k, v) :: kvs)) =
        .ok { m with extras := (k, v) :: m.extras }) ∧
    (∀ (k : String) (v : Json) (kvs : PyDict) (m : Models.SubscriptionPlan),
      k ∉ Models.subscriptionPlanKeys →
      Models.decodeSubscriptionPlan (.obj kvs) = .ok m →
      Models.decodeSubscriptionPlan (.obj ((k, v) :: kvs)) =
        .ok { m with extras := (k, v) :: m.extras }) ∧
    (∀ (k : String) (v : Json) (kvs : PyDict) (m : Models.Order),
      k ∉ Models.orderKeys → Models.decodeOrder (.obj kvs) = .ok m →
      Models.decodeOrder (.obj ((k, v) :: kvs)) =
        .ok { m with extras := (k, v) :: m.extras }) ∧
    (∀ (k : String) (v : Json) (kvs : PyDict) (m : Models.Address),
      k ∉ Models.addressKeys → Models.decodeAddress (.obj kvs) = .ok m →
      Models.decodeAddress (.obj ((k, v) :: kvs)) =
        .ok { m with extras := (k, v) :: m.extras }) ∧
    (∀ (k : String) (v : Json) (kvs : PyDict) (m : Models.CreditCard),
      k ∉ Models.creditCardKeys → Models.decodeCreditCard (.obj kvs) = .ok m →
      Models.decodeCreditCard (.obj ((k, v) :: kvs)) =
        .ok { m with extras := (k, v) :: m.extras }) ∧
    (∀ (k : String) (v : Json) (kvs : PyDict) (m : Models.TrackingParams),
      k ∉ Models.trackingParamsKeys →
      Models.decodeTrackingParams (.obj kvs) = .ok m →
      Models.decodeTrackingParams (.obj ((k, v) :: kvs)) =
        .ok { m with extras := (k, v) :: m.extras }) ∧
    (∀ (k : String) (v : Json) (kvs : PyDict) (m : Models.Product),
      k ∉ Models.productKeys → Models.decodeProduct (.obj kvs) = .ok m →
      Models.decodeProduct (.obj ((k, v) :: kvs)) =
        .ok { m with extras := (k, v) :: m.extras }) ∧
    (∀ (k : String) (v : Json) (kvs : PyDict) (m : Models.MemberSubscription),
      k ∉ Models.memberSubscriptionKeys →
      Models.decodeMemberSubscription (.obj kvs) = .ok m →
      Models.decodeMemberSubscription (.obj ((k, v) :: kvs)) =
        .ok { m with extras := (k, v) :: m.extras }) ∧
    (∀ (k : String) (v : Json) (kvs : PyDict) (m : Models.Subscription),
      k ∉ Models.subscriptionKeys → Models.decodeSubscription (.obj kvs) = .ok m →
      Models.decodeSubscription (.obj ((k, v) :: kvs)) =
        .ok { m with extras := (k, v) :: m.extras }) ∧
    (∀ (k : String) (v : Json) (kvs : PyDict) (m : Models.DeletedMember),
      k ∉ Models.deletedMemberKeys → Models.decodeDeletedMember (.obj kvs) = .ok m →
      Models.decodeDeletedMember (.obj ((k, v) :: kvs)) =
        .ok { m with extras := (k, v) :: m.extras }) ∧
    (∀ (k : String) (v : Json) (kvs : PyDict) (m : Models.SubscriptionChanges),
      k ∉ Models.subscriptionChangesKeys →
      Models.decodeSubscriptionChanges (.obj kvs) = .ok m →
      Models.decodeSubscriptionChanges (.obj ((k, v) :: kvs)) =
        .ok { m with extras := (k, v) :: m.extras }) ∧
    (∀ (k : String) (v : Json) (kvs : PyDict) (m : Models.MemberChanges),
      k ∉ Models.memberChangesKeys → Models.decodeMemberChanges (.obj kvs) = .ok m →
      Models.decodeMemberChanges (.obj ((k, v) :: kvs)) =
        .ok { m with extras := (k, v) :: m.extras }) :=
  ⟨fun _ _ _ _ hk hm => decodeMember_extra_key hk hm,
    fun _ _ _ _ hk hm => decodeSubscriptionPlan_extra_key hk hm,
    fun _ _ _ _ hk hm => decodeOrder_extra_key hk hm,
    fun _ _ _ _ hk hm => decodeAddress_extra_key hk hm,
    fun _ _ _ _ hk hm => decodeCreditCard_extra_key hk hm,
    fun _ _ _ _ hk hm => decodeTrackingParams_extra_key hk hm,
    fun _ _ _ _ hk hm => decodeProduct_extra_key hk hm,
    fun _ _ _ _ hk hm => decodeMemberSubscription_extra_key hk hm,
    fun _ _ _ _ hk hm => decodeSubscription_extra_key hk hm,
    fun _ _ _ _ hk hm => decodeDeletedMember_extra_key hk hm,
    fun _ _ _ _ hk hm => decodeSubscriptionChanges_extra_key hk hm,
    fun _ _ _ _ hk hm => decodeMemberChanges_extra_key hk hm⟩

/-- Witness for C4 at a concrete member with the unknown key
`custom_metadata`: the typed fields decode as before and the unknown
entry is retrievable from the extras. -/
theorem claimC4_unknown_fields_preserved_witness :
    "custom_metadata" ∉ Models.memberKeys ∧
    Models.decodeMember (.obj memberBaseKvs) = .ok memberBaseDecoded ∧
    Models.decodeMember (.obj (("custom_metadata", Json.str "vip") :: memberBaseKvs)) =
      .ok { memberBaseDecoded with
            extras := [("custom_metadata", Json.str "vip")] } :=
  ⟨by decide, rfl,
    claimC4_unknown_fields_preserved.1 "custom_metadata" (Json.str "vip")
      memberBaseKvs memberBaseDecoded (by decide) rfl⟩

/-- C4, the claim as stated, is false of the legacy entities of
`webhook_models.py`: decoding a legacy `Member` with the unknown key
`custom_metadata` yields exactly the same value as decoding without it,
so the unrecognized field is dropped and nothing about it is
retrievable after decode. -/
theorem claimC4_counterexample :
    Legacy.decodeMember (.obj (("custom_metadata", Json.str "vip") :: memberBaseKvs)) =
      Legacy.decodeMember (.obj memberBaseKvs) ∧
    exceptOk (Legacy.decodeMember (.obj memberBaseKvs)) = true :=
  ⟨rfl, rfl⟩
